import Mathlib

/-!
Verification development for the jsonmtz library (src/jsonmtz.c), a converter
between the binary MTZ reflection-file format and a JSON tree representation.

The development shallowly embeds the C source:

* JSON trees (the jansson library's `json_t`) become the inductive `Json`,
  keeping jansson's distinction between integer-typed and real-typed numbers.
  A `json_t *` pointer that may be NULL becomes `Option Json` (`none` = NULL).
* The MTZ record graph (cmtzlib's `MTZ` / `MTZXTAL` / `MTZSET` / `MTZCOL` /
  `MTZBAT` / `SYMGRP` structs) becomes plain Lean structures.  The singly
  linked batch list becomes a `List`, and the `MTZCOL *order[5]` pointer array
  becomes a list of optional index triples (crystal, dataset, column).
* Numeric payloads (C `float` / `double`) are carried as `Rat`: every claim
  under study is about copying and branching on these values, never about
  floating-point arithmetic, so an exact carrier is faithful.  The narrowing
  `double → float` conversions of the C are identities under this modelling.
* Fixed-width C character buffers are modelled by their logical contents: a
  `List Char` holding the characters up to the terminator / padding.  The
  spec describes these as bounded strings; well-formedness predicates record
  the capacity bounds that the buffers impose.

Functions are translated from src/jsonmtz.c and keep the source's names.
Behaviour of the external collaborators (jansson accessors, cmtzlib
allocation) that the source calls but does not define is modelled from their
documented behaviour, noted at each definition.
-/

namespace JsonMtz

/-- JSON tree value, mirroring jansson's `json_t` type tags
(`JSON_OBJECT`, `JSON_ARRAY`, `JSON_STRING`, `JSON_INTEGER`, `JSON_REAL`,
`JSON_TRUE`/`JSON_FALSE`, `JSON_NULL`).  Note that integer-typed and
real-typed numbers are distinct types, exactly as in jansson. -/
inductive Json where
  | obj (fields : List (String × Json))
  | arr (elems : List Json)
  | str (s : List Char)
  | int (n : Int)
  | real (x : Rat)
  | bool (b : Bool)
  | null

/-- The NUL character, used for C string terminators and `strncpy` padding. -/
def nulChar : Char := Char.ofNat 0

/-- jansson `json_array_size`: the length of an array, 0 for any other value. -/
def json_array_size : Json → Nat
  | .arr l => l.length
  | _ => 0

/-- Elements iterated by jansson's `json_array_foreach`: the element list of
an array, and the empty list for any non-array value (the macro iterates
`json_array_size` times, which is 0 for non-arrays). -/
def jelems : Json → List Json
  | .arr l => l
  | _ => []

/-- jansson `json_array_get`: element `i` of an array, NULL (`none`) out of
range or on a non-array. -/
def json_array_get : Json → Nat → Option Json
  | .arr l, i => l.get? i
  | _, _ => none

/-- jansson `json_array_get` applied through a possibly-NULL pointer
(`json_array_get(NULL, i)` returns NULL). -/
def json_array_getO : Option Json → Nat → Option Json
  | some j, i => json_array_get j i
  | none, _ => none

/-- jansson `json_object_get` / a single `json_unpack(v, "\x7bs:o\x7d", key, &p)`:
the value stored under `key`, NULL (`none`) when the key is missing or the
value is not an object.  jansson objects collapse duplicate keys; `lookup`
returns the first binding, matching the collapsed table. -/
def jObjGet (j : Json) (k : String) : Option Json :=
  match j with
  | .obj fs => fs.lookup k
  | _ => none

/-- jansson `json_is_object` on a possibly-NULL pointer. -/
def json_is_object : Option Json → Bool
  | some (.obj _) => true
  | _ => false

/-- jansson `json_is_array` on a possibly-NULL pointer. -/
def json_is_array : Option Json → Bool
  | some (.arr _) => true
  | _ => false

/-- jansson `json_is_string` on a possibly-NULL pointer. -/
def json_is_string : Option Json → Bool
  | some (.str _) => true
  | _ => false

/-- jansson `json_is_integer` on a possibly-NULL pointer. -/
def json_is_integer : Option Json → Bool
  | some (.int _) => true
  | _ => false

/-- jansson `json_is_real` on a possibly-NULL pointer. -/
def json_is_real : Option Json → Bool
  | some (.real _) => true
  | _ => false

/-- jansson `json_is_number`: true for integer-typed and real-typed values. -/
def json_is_number : Option Json → Bool
  | some (.int _) => true
  | some (.real _) => true
  | _ => false

/-- jansson `json_real_value` on a possibly-NULL pointer: the real payload of
a `JSON_REAL` value, and 0.0 for NULL or any other type. -/
def json_real_value : Option Json → Rat
  | some (.real x) => x
  | _ => 0

/-- jansson `json_integer_value` on a possibly-NULL pointer: the integer
payload of a `JSON_INTEGER` value, and 0 for NULL or any other type (in
particular, 0 for a `JSON_REAL` value). -/
def json_integer_value : Option Json → Int
  | some (.int n) => n
  | _ => 0

/-- jansson `json_string_value` on a possibly-NULL pointer: the character
data of a string value, NULL (`none`) for NULL or any other type. -/
def json_string_value : Option Json → Option (List Char)
  | some (.str s) => some s
  | _ => none

/-- src/jsonmtz.c `json_array_is_homogenous_object`: the loop over
`json_array_size` elements returns 0 at the first non-object element and 1
otherwise (for a non-array the loop runs zero times and returns 1). -/
def json_array_is_homogenous_object (j : Json) : Bool :=
  (jelems j).all (fun e => json_is_object (some e))

/-- src/jsonmtz.c `json_array_is_homogenous_array`. -/
def json_array_is_homogenous_array (j : Json) : Bool :=
  (jelems j).all (fun e => json_is_array (some e))

/-- src/jsonmtz.c `json_array_is_homogenous_string`. -/
def json_array_is_homogenous_string (j : Json) : Bool :=
  (jelems j).all (fun e => json_is_string (some e))

/-- src/jsonmtz.c `json_array_is_homogenous_integer`. -/
def json_array_is_homogenous_integer (j : Json) : Bool :=
  (jelems j).all (fun e => json_is_integer (some e))

/-- src/jsonmtz.c `json_array_is_homogenous_real`. -/
def json_array_is_homogenous_real (j : Json) : Bool :=
  (jelems j).all (fun e => json_is_real (some e))

/-- src/jsonmtz.c `json_truth`: always returns 1. -/
def json_truth (_ : Json) : Bool := true

/-- src/jsonmtz.c `json_array_check_dimensions_f`.  The C body is a sequence
of early returns; the translation keeps them in order:
`len == 0` falls through every guard to `return json_array_size == 0`
(first guard or final `return 0`); `len > 0` with a size mismatch returns 0;
`len > 1` recurses into every element and then returns 1; `len == 1` with a
matching size returns the inner check applied to the whole node.  The `dim`
pointer plus separate `len` argument of the C become a single list. -/
def json_array_check_dimensions_f (j : Json) (dim : List Nat)
    (inner_check_function : Json → Bool) : Bool :=
  match dim with
  | [] => json_array_size j == 0
  | d :: rest =>
    if json_array_size j ≠ d then false
    else if rest.length > 0 then
      (jelems j).all (fun c => json_array_check_dimensions_f c rest inner_check_function)
    else inner_check_function j

/-- src/jsonmtz.c `json_array_check_dimensions`: the pure shape check, with
`json_truth` as the leaf predicate. -/
def json_array_check_dimensions (j : Json) (dim : List Nat) : Bool :=
  json_array_check_dimensions_f j dim json_truth

/-- Modelled from the spec's description of the shape validator (§4.1
ShapeValidator): empty `dims` demands an empty sequence; non-empty `dims`
demands length `dims[0]` at this level, recursing with the tail on every
element, and applies the leaf predicate to the entire innermost node when one
dimension remains.  Declarative-by-levels restatement used as the refinement
target for the checker. -/
def checkShapeSpec (j : Json) (dim : List Nat) (leafPredicate : Json → Bool) : Bool :=
  match dim with
  | [] => json_array_size j == 0
  | [d] => json_array_size j == d && leafPredicate j
  | d :: rest => json_array_size j == d &&
      (jelems j).all (fun c => checkShapeSpec c rest leafPredicate)

/-- Unfolding equation for `json_array_check_dimensions_f` at a non-empty
dimension list. -/
theorem json_array_check_dimensions_f_cons (j : Json) (d : Nat) (rest : List Nat)
    (f : Json → Bool) :
    json_array_check_dimensions_f j (d :: rest) f =
      (if json_array_size j ≠ d then false
       else if rest.length > 0 then
         (jelems j).all (fun c => json_array_check_dimensions_f c rest f)
       else f j) := by
  rw [json_array_check_dimensions_f.eq_def]

/-- Congruence for `List.all` with pointwise-equal predicates. -/
theorem list_all_congrB {α : Type} (l : List α) (p q : α → Bool)
    (h : ∀ a, p a = q a) : l.all p = l.all q := by
  have hpq : p = q := funext h
  rw [hpq]

/-- C3: `json_array_check_dimensions_f` returns true exactly when, at every
nesting level, the sequence length matches the corresponding entry of `dims`
and the leaf predicate holds on the innermost sequences (so any length
mismatch at any level yields false, since the level-by-level conjunction
fails); empty `dims` with an empty sequence is valid; and the plain
`json_array_check_dimensions` is the same check with the always-true leaf
predicate. -/
theorem json_array_check_dimensions_f_correct :
    (∀ (j : Json) (dim : List Nat) (f : Json → Bool),
      json_array_check_dimensions_f j dim f = checkShapeSpec j dim f) ∧
    (∀ f : Json → Bool, json_array_check_dimensions_f (Json.arr []) [] f = true) ∧
    (∀ (j : Json) (dim : List Nat),
      json_array_check_dimensions j dim = json_array_check_dimensions_f j dim json_truth) := by
  refine ⟨?_, fun f => rfl, fun j dim => rfl⟩
  intro j dim f
  induction dim generalizing j with
  | nil => rfl
  | cons d rest ih =>
    cases rest with
    | nil =>
      rw [json_array_check_dimensions_f_cons]
      simp only [checkShapeSpec]
      by_cases h : json_array_size j = d <;> simp [h]
    | cons r rs =>
      rw [json_array_check_dimensions_f_cons,
        list_all_congrB (jelems j) _ _ (fun c => ih c)]
      simp only [checkShapeSpec]
      by_cases h : json_array_size j = d <;> simp [h]

/-! ## Fixed-width record lines and `stringtrimn` -/

/-- MTZ header record line width (cmtzlib's `MTZRECORDLENGTH`). -/
def MTZRECORDLENGTH : Nat := 80

/-- Characters up to (excluding) the first NUL: the portion of a buffer that
`strncpy` reads from its source. -/
def takeToNul : List Char → List Char
  | [] => []
  | c :: cs => if c = nulChar then [] else c :: takeToNul cs

/-- Trailing-padding strip: `stringtrimn`'s backwards walk drops `'\0'` and
`' '` characters from the right end of the buffer. -/
def dropTrailingPad (l : List Char) : List Char :=
  (l.reverse.dropWhile (fun c => c = ' ' || c = nulChar)).reverse

/-- src/jsonmtz.c `stringtrimn`: copies at most `len` characters of the
source into a zero-filled buffer (so copying stops at the first NUL and the
rest is NUL), then walks back from the end over `'\0'` and `' '` and
terminates there.  The value returned is the longest prefix of the first
`len` source characters, cut at the first NUL, without trailing spaces.
The C walk under-runs the buffer when everything is padding; the result in
that case is the empty string, as modelled here. -/
def stringtrimn (s : List Char) (len : Nat) : List Char :=
  dropTrailingPad (takeToNul (s.take len))

/-- A stored header line that survives `stringtrimn` unchanged: bounded by
`cap`, free of NUL characters, and without a trailing space. -/
def isTrimmedLine (l : List Char) (cap : Nat) : Bool :=
  decide (l.length ≤ cap) && l.all (fun c => c ≠ nulChar) &&
    (match l.getLast? with
     | some c => c ≠ ' '
     | none => true)

theorem takeToNul_eq_self {l : List Char} (h : l.all (fun c => c ≠ nulChar) = true) :
    takeToNul l = l := by
  induction l with
  | nil => rfl
  | cons c cs ih =>
    simp only [List.all_cons, Bool.and_eq_true, decide_eq_true_eq] at h
    simp [takeToNul, h.1, ih h.2]

theorem dropTrailingPad_eq_self {l : List Char}
    (hnul : l.all (fun c => c ≠ nulChar) = true)
    (hsp : (match l.getLast? with | some c => c ≠ ' ' | none => true) = true) :
    dropTrailingPad l = l := by
  unfold dropTrailingPad
  rcases hrev : l.reverse with _ | ⟨c, r⟩
  · simpa using congrArg List.reverse hrev
  · have hc : c ∈ l := by
      have : c ∈ l.reverse := by rw [hrev]; exact List.mem_cons_self c r
      exact List.mem_reverse.mp this
    have hcnul : c ≠ nulChar := by
      have := List.all_eq_true.mp hnul c hc
      simpa using this
    have hlast : l.getLast? = some c := by
      rw [← List.head?_reverse, hrev]; rfl
    have hcsp : c ≠ ' ' := by
      rw [hlast] at hsp; simpa using hsp
    rw [List.dropWhile_cons_of_neg (by simp [hcsp, hcnul])]
    simpa using (congrArg List.reverse hrev).symm

/-- A line satisfying `isTrimmedLine` is a fixed point of `stringtrimn`. -/
theorem stringtrimn_eq_self {l : List Char} {cap : Nat}
    (h : isTrimmedLine l cap = true) : stringtrimn l cap = l := by
  unfold isTrimmedLine at h
  simp only [Bool.and_eq_true, decide_eq_true_eq] at h
  obtain ⟨⟨hlen, hnul⟩, hsp⟩ := h
  unfold stringtrimn
  rw [List.take_of_length_le hlen, takeToNul_eq_self hnul,
    dropTrailingPad_eq_self hnul hsp]

/-! ## The MTZ record model

Lean structures mirroring the cmtzlib structs that src/jsonmtz.c reads and
writes.  Only the members that the source touches are modelled.  Fixed-size
C string buffers appear as their logical contents (`List Char`); fixed-size
numeric arrays appear as lists whose well-formed length is the C array
length; the reflection data `float *ref` of a column is a `List Rat` of the
record's reflection count. -/

/-- cmtzlib `MTZCOL`: one column of per-reflection values plus metadata. -/
structure MtzCol where
  label : List Char
  type : List Char
  colsource : List Char
  grpname : List Char
  grptype : List Char
  grpposn : Int
  source : Int
  min : Rat
  max : Rat
  ref : List Rat
deriving DecidableEq

/-- cmtzlib `MTZSET`: a dataset holding columns. -/
structure MtzSet where
  dname : List Char
  setid : Int
  wavelength : Rat
  cols : List MtzCol
deriving DecidableEq

/-- cmtzlib `MTZXTAL`: a crystal holding datasets. -/
structure MtzXtal where
  xname : List Char
  pname : List Char
  xtalid : Int
  cell : List Rat
  resmax : Rat
  resmin : Rat
  sets : List MtzSet
deriving DecidableEq

/-- cmtzlib `SYMGRP`: the symmetry table.  `sym` is the fixed
`float sym[192][4][4]` block. -/
structure SymGrp where
  spcgrp : Int
  spcgrpname : List Char
  pgname : List Char
  spg_confidence : Char
  nsym : Int
  nsymp : Int
  symtyp : Char
  sym : List (List (List Rat))
deriving DecidableEq

/-- cmtzlib `MTZBAT`: one batch header.  The singly linked `next` chain of
the C struct is re-expressed by keeping batches in a `List MtzBat`. -/
structure MtzBat where
  title : List Char
  nbsetid : Int
  ncryst : Int
  num : Int
  alambd : Rat
  cell : List Rat
  umat : List Rat
  bbfac : Rat
  bscale : Rat
  crydat : List Rat
  datum : List Rat
  delamb : Rat
  delcor : Rat
  detlm : List (List (List Rat))
  divhd : Rat
  divvd : Rat
  dx : List Rat
  e1 : List Rat
  e2 : List Rat
  e3 : List Rat
  gonlab : List (List Char)
  iortyp : Int
  jsaxs : Int
  jumpax : Int
  lbcell : List Int
  lbmflg : Int
  lcrflg : Int
  ldtype : Int
  misflg : Int
  nbscal : Int
  ndet : Int
  ngonax : Int
  phiend : Rat
  phirange : Rat
  phistt : Rat
  phixyz : List (List Rat)
  scanax : List Rat
  sdbfac : Rat
  sdbscale : Rat
  so : List Rat
  source : List Rat
  theta : List Rat
  time1 : Rat
  time2 : Rat
deriving DecidableEq

/-- cmtzlib `MTZ`: the whole record.  `order` models the `MTZCOL *order[5]`
sort-order pointer array: a slot holds the (crystal, dataset, column) index
triple of the referenced column, or `none` for a NULL slot.  `hist` and
`unknown_headers` hold one entry per fixed-width record line of the
corresponding character blobs, and `histlines` / `n_unknown_headers` are the
lengths of these lists.  `nref` is the reflection count (`nref` /
`nref_filein`, equal for an in-memory record). -/
structure Mtz where
  title : List Char
  hist : List (List Char)
  xtals : List MtzXtal
  mtzsymm : SymGrp
  batches : List MtzBat
  order : List (Option (Nat × Nat × Nat))
  unknown_headers : List (List Char)
  nref : Nat
deriving DecidableEq

/-- Modelled from the spec: cmtzlib's `MtzMallocCol` hands the builder a
fresh column whose fields are at their zero-initialized defaults and whose
reflection array has `nref` zero-filled slots (§4.4 step 6, "any other
element type at a given position leaves that slot at its zero default"). -/
def defaultCol (nref : Nat) : MtzCol :=
  { label := [], type := [], colsource := [], grpname := [], grptype := []
  , grpposn := 0, source := 0, min := 0, max := 0
  , ref := List.replicate nref 0 }

/-- Modelled from the spec: a dataset slot of a freshly allocated record
(`MtzMalloc`), before the populate pass writes into it (zero defaults). -/
def defaultSet : MtzSet :=
  { dname := [], setid := 0, wavelength := 0, cols := [] }

/-- Modelled from the spec: a crystal slot of a freshly allocated record
(`MtzMalloc`), before the populate pass writes into it (zero defaults). -/
def defaultXtal : MtzXtal :=
  { xname := [], pname := [], xtalid := 0, cell := List.replicate 6 0
  , resmax := 0, resmin := 0, sets := [] }

/-- Modelled from the spec: the symmetry table of a freshly allocated record,
all 192 operator slots zero-filled (§3, "unused trailing entries are
zero-filled, not trimmed"). -/
def defaultSym : SymGrp :=
  { spcgrp := 0, spcgrpname := [], pgname := [], spg_confidence := nulChar
  , nsym := 0, nsymp := 0, symtyp := nulChar
  , sym := List.replicate 192 (List.replicate 4 (List.replicate 4 0)) }

/-- Modelled from the spec: `MtzMallocBatch` hands the builder a fresh batch
node with every field at its zero-initialized default (§4.4, batches apply
"the same per-field optional/type-checked copy discipline"). -/
def defaultBat : MtzBat :=
  { title := [], nbsetid := 0, ncryst := 0, num := 0, alambd := 0
  , cell := List.replicate 6 0, umat := List.replicate 9 0
  , bbfac := 0, bscale := 0, crydat := List.replicate 12 0
  , datum := List.replicate 3 0, delamb := 0, delcor := 0
  , detlm := List.replicate 2 (List.replicate 2 (List.replicate 2 0))
  , divhd := 0, divvd := 0, dx := List.replicate 2 0
  , e1 := List.replicate 3 0, e2 := List.replicate 3 0, e3 := List.replicate 3 0
  , gonlab := List.replicate 3 [], iortyp := 0, jsaxs := 0, jumpax := 0
  , lbcell := List.replicate 6 0, lbmflg := 0, lcrflg := 0, ldtype := 0
  , misflg := 0, nbscal := 0, ndet := 0, ngonax := 0
  , phiend := 0, phirange := 0, phistt := 0
  , phixyz := List.replicate 2 (List.replicate 3 0)
  , scanax := List.replicate 3 0, sdbfac := 0, sdbscale := 0
  , so := List.replicate 3 0, source := List.replicate 3 0
  , theta := List.replicate 2 0, time1 := 0, time2 := 0 }

/-! ## The reader: Record → Tree (`readMtz` and helpers)

The missing-number test `ccp4_ismnf(mtzin, refl)` lives in the external
CCP4 library; the record's missing-value predicate is therefore passed as a
parameter `p : Rat → Bool` (the spec describes it only as "a reserved
sentinel tested via a predicate, never compared by raw equality"). -/

/-- The string token `"NaN"` that the reader emits for missing values. -/
def nanToken : List Char := ['N', 'a', 'N']

/-- Triple indexing into a `[192][4][4]`-style block, with zero default. -/
def get3 (m : List (List (List Rat))) (i j k : Nat) : Rat :=
  ((m.getD i []).getD j []).getD k 0

/-- Double indexing into a `[2][3]`-style block, with zero default. -/
def get2 (m : List (List Rat)) (i j : Nat) : Rat :=
  (m.getD i []).getD j 0

/-- src/jsonmtz.c `readMtzSymmetry`: emits the symmetry object, always with
all 192 operator slots. -/
def readMtzSymmetry (sym : SymGrp) : Json :=
  Json.obj
    [ ("SpaceGroupNumber", .int sym.spcgrp)
    , ("SpaceGroupName", .str sym.spcgrpname)
    , ("PointGroupName", .str sym.pgname)
    , ("SpaceGroupConfidence", .str [sym.spg_confidence])
    , ("NumberOfSymmetryOperations", .int sym.nsym)
    , ("NumberOfPrimitiveSymmetryOperations", .int sym.nsymp)
    , ("SymmetryOperations", .arr ((List.range 192).map (fun i =>
        .arr ((List.range 4).map (fun j =>
          .arr ((List.range 4).map (fun k =>
            .real (get3 sym.sym i j k))))))))
    , ("LatticeType", .str [sym.symtyp]) ]

/-- src/jsonmtz.c `readMtzBatch`: emits one batch object.  The C `for`
loops over fixed-size arrays become maps over `List.range`; the `json_pack`
calls for the detector limits, missetting angles, detector distance and
theta blocks become the same explicit nested arrays. -/
def readMtzBatch (b : MtzBat) : Json :=
  Json.obj
    [ ("Title", .str b.title)
    , ("DatasetID", .int b.nbsetid)
    , ("CrystalNumber", .int b.ncryst)
    , ("BatchNumber", .int b.num)
    , ("Wavelength", .real b.alambd)
    , ("CellDimensions", .arr ((List.range 6).map (fun i => .real (b.cell.getD i 0))))
    , ("OrientationMatrix", .arr ((List.range 9).map (fun i => .real (b.umat.getD i 0))))
    , ("TemperatureFactor", .real b.bbfac)
    , ("Scale", .real b.bscale)
    , ("Mosaicity", .arr ((List.range 12).map (fun i => .real (b.crydat.getD i 0))))
    , ("GoniostatDatum", .arr ((List.range 3).map (fun i => .real (b.datum.getD i 0))))
    , ("Dispersion", .real b.delamb)
    , ("CorrelatedComponent", .real b.delcor)
    , ("DetectorLimits", .arr
        [ .arr [ .arr [.real (get3 b.detlm 0 0 0), .real (get3 b.detlm 0 0 1)]
               , .arr [.real (get3 b.detlm 0 1 0), .real (get3 b.detlm 0 1 1)] ]
        , .arr [ .arr [.real (get3 b.detlm 1 0 0), .real (get3 b.detlm 1 0 1)]
               , .arr [.real (get3 b.detlm 1 1 0), .real (get3 b.detlm 1 1 1)] ] ])
    , ("HorizontalBeamDivergence", .real b.divhd)
    , ("VerticalBeamDivergence", .real b.divvd)
    , ("DetectorDistance", .arr [.real (b.dx.getD 0 0), .real (b.dx.getD 1 0)])
    , ("Vector1", .arr ((List.range 3).map (fun i => .real (b.e1.getD i 0))))
    , ("Vector2", .arr ((List.range 3).map (fun i => .real (b.e2.getD i 0))))
    , ("Vector3", .arr ((List.range 3).map (fun i => .real (b.e3.getD i 0))))
    , ("AxesLabels", .arr ((List.range 3).map (fun i => .str (b.gonlab.getD i []))))
    , ("OrientationBlockType", .int b.iortyp)
    , ("GoniostatScanAxisNumber", .int b.jsaxs)
    , ("JumpAxis", .int b.jumpax)
    , ("CellRefinementFlags", .arr ((List.range 6).map (fun i => .int (b.lbcell.getD i 0))))
    , ("BeamInfoFlag", .int b.lbmflg)
    , ("MosaicityModelFlag", .int b.lcrflg)
    , ("DataTypeFlag", .int b.ldtype)
    , ("MisFlag", .int b.misflg)
    , ("NumberOfBatchScales", .int b.nbscal)
    , ("NumberOfDetectors", .int b.ndet)
    , ("NumberOfGoniostatAxes", .int b.ngonax)
    , ("EndOfPhi", .real b.phiend)
    , ("PhiRange", .real b.phirange)
    , ("StartOfPhi", .real b.phistt)
    , ("MissettingAngles", .arr
        [ .arr [.real (get2 b.phixyz 0 0), .real (get2 b.phixyz 0 1), .real (get2 b.phixyz 0 2)]
        , .arr [.real (get2 b.phixyz 1 0), .real (get2 b.phixyz 1 1), .real (get2 b.phixyz 1 2)] ])
    , ("RotationAxis", .arr ((List.range 3).map (fun i => .real (b.scanax.getD i 0))))
    , ("BFactorSD", .real b.sdbfac)
    , ("BScaleSD", .real b.sdbscale)
    , ("SourceVector", .arr ((List.range 3).map (fun i => .real (b.so.getD i 0))))
    , ("IdealisedSourceVector", .arr ((List.range 3).map (fun i => .real (b.source.getD i 0))))
    , ("Theta", .arr [.real (b.theta.getD 0 0), .real (b.theta.getD 1 0)])
    , ("StartTime", .real b.time1)
    , ("StopTime", .real b.time2) ]

/-- The reflection-data loop of src/jsonmtz.c `readMtzSet`: for each of the
`nref` positions, a value satisfying the missing-value predicate is emitted
as the string token `"NaN"`, any other value as a real number. -/
def readRefl (p : Rat → Bool) (nref : Nat) (col : MtzCol) : List Json :=
  (List.range nref).map (fun i =>
    let refl := col.ref.getD i 0
    if p refl then Json.str nanToken else Json.real refl)

/-- The per-column object built inside src/jsonmtz.c `readMtzSet`. -/
def readMtzColumn (p : Rat → Bool) (nref : Nat) (col : MtzCol) : Json :=
  Json.obj
    [ ("ColumnSource", .str col.colsource)
    , ("GroupName", .str col.grpname)
    , ("GroupPosition", .int col.grpposn)
    , ("GroupType", .str col.grptype)
    , ("Label", .str col.label)
    , ("MaxValue", .real col.max)
    , ("MinValue", .real col.min)
    , ("ColumnID", .int col.source)
    , ("Type", .str col.type)
    , ("Data", .arr (readRefl p nref col)) ]

/-- src/jsonmtz.c `readMtzSet`: emits one dataset object. -/
def readMtzSet (p : Rat → Bool) (set : MtzSet) (nref : Nat) : Json :=
  Json.obj
    [ ("DatasetName", .str set.dname)
    , ("DatasetID", .int set.setid)
    , ("Wavelength", .real set.wavelength)
    , ("Columns", .arr (set.cols.map (readMtzColumn p nref))) ]

/-- src/jsonmtz.c `readMtzXtal`: emits one crystal object. -/
def readMtzXtal (p : Rat → Bool) (xtal : MtzXtal) (nref : Nat) : Json :=
  Json.obj
    [ ("CrystalName", .str xtal.xname)
    , ("CrystalID", .int xtal.xtalid)
    , ("CellConstants", .arr ((List.range 6).map (fun i => .real (xtal.cell.getD i 0))))
    , ("ProjectName", .str xtal.pname)
    , ("ResolutionMax", .real xtal.resmax)
    , ("ResolutionMin", .real xtal.resmin)
    , ("Datasets", .arr (xtal.sets.map (fun s => readMtzSet p s nref))) ]

/-- The source id stored at an `order` slot: the `source` member of the
column the slot points to (`mtzin->order[i]->source`). -/
def sourceAt (mtz : Mtz) (t : Nat × Nat × Nat) : Int :=
  ((((mtz.xtals.getD t.1 defaultXtal).sets.getD t.2.1 defaultSet).cols.getD
      t.2.2 (defaultCol 0)).source)

/-- The sort-order loop of src/jsonmtz.c `readMtz`: walks the five `order`
slots in index order appending the referenced column's source id for every
non-NULL slot. -/
def readSortOrder (mtz : Mtz) : List Json :=
  (List.range 5).foldl (fun acc i =>
    match mtz.order.getD i none with
    | some t => acc ++ [Json.int (sourceAt mtz t)]
    | none => acc) []

/-- The unknown-headers loop of src/jsonmtz.c `readMtz`: when the stored
count is non-zero, emits one trimmed string per line for the first
`count / 2` lines — the division by two compensating a suspected
line-duplication defect of the external binary codec ("Bug in cmtzlib?
Headers duplicate if not divided by 2"). -/
def readUnknownHeaders (mtz : Mtz) : List Json :=
  if mtz.unknown_headers.length ≠ 0 then
    (List.range (mtz.unknown_headers.length / 2)).map (fun i =>
      Json.str (stringtrimn (mtz.unknown_headers.getD i []) MTZRECORDLENGTH))
  else []

/-- src/jsonmtz.c `readMtz`: walks a record and emits the full tree.
History lines are emitted trimmed (`stringtrimn` over each fixed-width
line); batches are walked in list order (the C follows the `next` chain). -/
def readMtz (p : Rat → Bool) (mtz : Mtz) : Json :=
  Json.obj
    [ ("Title", .str mtz.title)
    , ("History", .arr (mtz.hist.map (fun l =>
        Json.str (stringtrimn l MTZRECORDLENGTH))))
    , ("Crystals", .arr (mtz.xtals.map (fun x => readMtzXtal p x mtz.nref)))
    , ("Symmetry", readMtzSymmetry mtz.mtzsymm)
    , ("Batches", .arr (mtz.batches.map readMtzBatch))
    , ("SortOrder", .arr (readSortOrder mtz))
    , ("UnknownHeaders", .arr (readUnknownHeaders mtz)) ]

/-! ## The builder: Tree → Record (`makeMtz` and helpers) -/

/-- Model of `snprintf(dst, cap, "%s", s)` into a fixed buffer of `cap`
bytes: at most `cap - 1` characters are stored (truncating copy, always
NUL-terminated). -/
def snprintfStr (cap : Nat) (s : List Char) : List Char := s.take (cap - 1)

/-- The characters glibc's `printf` family substitutes for a NULL `%s`
argument.  src/jsonmtz.c passes `json_string_value` results to `snprintf`
unchecked in the `gonlab` loop, so a NULL reaches `%s` there; ISO C leaves
this undefined and glibc prints `(null)`, which is what the model adopts. -/
def nullToken : List Char := ['(', 'n', 'u', 'l', 'l', ')']

/-- `snprintf(dst, cap, "%s", p)` where `p` is a possibly-NULL
`json_string_value` result. -/
def snprintfOpt (cap : Nat) (o : Option (List Char)) : List Char :=
  (o.getD nullToken).take (cap - 1)

/-- Model of `strncpy(dst, src, cap)` into a `cap`-byte field: at most `cap`
characters are stored (the remainder of the field is NUL-filled). -/
def strncpyStr (cap : Nat) (s : List Char) : List Char := s.take cap

/-- The reflection-data loop of the column body in src/jsonmtz.c
`setMtzSet`: for every position of the tree's `Data` array, an element whose
`json_typeof` is `JSON_REAL` is stored at the same position of the
reflection array, any other element leaves the slot unchanged.  Tree
positions beyond the allocated reflection count would be out-of-bounds
writes in the C (unreachable from `makeMtz`, whose count pass fixes the
lengths); the model drops them. -/
def setRefData : List Rat → List Json → List Rat
  | orig, [] => orig
  | [], _ => []
  | o :: os, x :: xs =>
    (match x with
     | .real v => v
     | _ => o) :: setRefData os xs

/-- A `json_array_foreach` copy `dst[i] = json_real_value(elem)` into an
existing fixed array (crystal cell constants, symmetry rows): every tree
element overwrites the slot at its index, slots past the tree's length keep
their old value, tree elements past the array's length would be
out-of-bounds writes in the C and are dropped by the model. -/
def copyRealList : List Rat → List Json → List Rat
  | orig, [] => orig
  | [], _ => []
  | _ :: os, x :: xs => json_real_value (some x) :: copyRealList os xs

/-- Two-level `json_array_foreach` copy (rows of a fixed block). -/
def copyRealList2 : List (List Rat) → List Json → List (List Rat)
  | orig, [] => orig
  | [], _ => []
  | o :: os, x :: xs => copyRealList o (jelems x) :: copyRealList2 os xs

/-- Three-level `json_array_foreach` copy (the 192×4×4 symmetry block). -/
def copyRealList3 : List (List (List Rat)) → List Json → List (List (List Rat))
  | orig, [] => orig
  | [], _ => []
  | o :: os, x :: xs => copyRealList2 o (jelems x) :: copyRealList3 os xs

/-- A fixed-count copy loop `for (i = 0; i < n; i++) dst[i] =
json_real_value(json_array_get(jarr, i))`: all `n` slots are written. -/
def fixedRealCopy (n : Nat) (jarr : Option Json) : List Rat :=
  (List.range n).map (fun i => json_real_value (json_array_getO jarr i))

/-- A fixed-count integer copy loop (`lbcell`). -/
def fixedIntCopy (n : Nat) (jarr : Option Json) : List Int :=
  (List.range n).map (fun i => json_integer_value (json_array_getO jarr i))

/-- A fixed two-level copy loop (`phixyz`). -/
def fixedReal2Copy (n1 n2 : Nat) (jarr : Option Json) : List (List Rat) :=
  (List.range n1).map (fun i =>
    (List.range n2).map (fun j =>
      json_real_value (json_array_getO (json_array_getO jarr i) j)))

/-- A fixed three-level copy loop (`detlm`). -/
def fixedReal3Copy (n1 n2 n3 : Nat) (jarr : Option Json) : List (List (List Rat)) :=
  (List.range n1).map (fun i =>
    (List.range n2).map (fun j =>
      (List.range n3).map (fun k =>
        json_real_value (json_array_getO (json_array_getO (json_array_getO jarr i) j) k))))

/-- src/jsonmtz.c `setMtzSymmetry`: transfers the symmetry object into the
freshly allocated record's symmetry table `sym0`.  Every field copy is
guarded by presence and type, the operator block additionally by the
192×4×4 shape-and-real check. -/
def setMtzSymmetry (sym0 : SymGrp) (jsymm : Json) : SymGrp :=
  let jspcgrp := jObjGet jsymm "SpaceGroupNumber"
  let jspcgrpname := jObjGet jsymm "SpaceGroupName"
  let jpgname := jObjGet jsymm "PointGroupName"
  let jspg_confidence := jObjGet jsymm "SpaceGroupConfidence"
  let jnsym := jObjGet jsymm "NumberOfSymmetryOperations"
  let jnsymp := jObjGet jsymm "NumberOfPrimitiveSymmetryOperations"
  let jsym := jObjGet jsymm "SymmetryOperations"
  let jsymtyp := jObjGet jsymm "LatticeType"
  { spcgrp := if json_is_integer jspcgrp then json_integer_value jspcgrp else sym0.spcgrp
  , spcgrpname := match json_string_value jspcgrpname with
      | some s => strncpyStr 21 s
      | none => sym0.spcgrpname
  , pgname := match json_string_value jpgname with
      | some s => strncpyStr 11 s
      | none => sym0.pgname
  , spg_confidence := match json_string_value jspg_confidence with
      | some s => s.headD nulChar
      | none => sym0.spg_confidence
  , nsym := if json_is_integer jnsym then json_integer_value jnsym else sym0.nsym
  , nsymp := if json_is_integer jnsymp then json_integer_value jnsymp else sym0.nsymp
  , sym := match jsym with
      | some js =>
        if json_is_array (some js) &&
           json_array_check_dimensions_f js [192, 4, 4] json_array_is_homogenous_real then
          copyRealList3 sym0.sym (jelems js)
        else sym0.sym
      | none => sym0.sym
  , symtyp := match json_string_value jsymtyp with
      | some s => s.headD nulChar
      | none => sym0.symtyp }

/-- The per-batch body of src/jsonmtz.c `setMtzBatches`: builds one batch
from a freshly allocated (`MtzMallocBatch`, zero-default) node.  All scalar
fields and all shape-checked blocks are guarded copies; the goniostat axis
labels (`gonlab` / `AxesLabels`) are copied *unconditionally*, pushing a
possibly-NULL `json_string_value` result straight into `snprintf`.  Note
the `iortyp` guard: the field is tested with `json_is_real`, and
`json_integer_value` of a real is 0, so the stored value is never taken
from an integer-typed tree element. -/
def setMtzBatch (jb : Json) : MtzBat :=
  let b0 := defaultBat
  let jtitle := jObjGet jb "Title"
  let jnbsetid := jObjGet jb "DatasetID"
  let jncryst := jObjGet jb "CrystalNumber"
  let jnum := jObjGet jb "BatchNumber"
  let jalambd := jObjGet jb "Wavelength"
  let jbbfac := jObjGet jb "TemperatureFactor"
  let jbscale := jObjGet jb "Scale"
  let jdelamb := jObjGet jb "Dispersion"
  let jdelcor := jObjGet jb "CorrelatedComponent"
  let jdivhd := jObjGet jb "HorizontalBeamDivergence"
  let jdivvd := jObjGet jb "VerticalBeamDivergence"
  let jiortyp := jObjGet jb "OrientationBlockType"
  let jjsaxs := jObjGet jb "GoniostatScanAxisNumber"
  let jjumpax := jObjGet jb "JumpAxis"
  let jlbmflg := jObjGet jb "BeamInfoFlag"
  let jlcrflg := jObjGet jb "MosaicityModelFlag"
  let jldtype := jObjGet jb "DataTypeFlag"
  let jmisflg := jObjGet jb "MisFlag"
  let jnbscal := jObjGet jb "NumberOfBatchScales"
  let jndet := jObjGet jb "NumberOfDetectors"
  let jngonax := jObjGet jb "NumberOfGoniostatAxes"
  let jphiend := jObjGet jb "EndOfPhi"
  let jphirange := jObjGet jb "PhiRange"
  let jphistt := jObjGet jb "StartOfPhi"
  let jsdbfac := jObjGet jb "BFactorSD"
  let jsdbscale := jObjGet jb "BScaleSD"
  let jtime1 := jObjGet jb "StartTime"
  let jtime2 := jObjGet jb "StopTime"
  let jcell := jObjGet jb "CellDimensions"
  let jumat := jObjGet jb "OrientationMatrix"
  let jcrydat := jObjGet jb "Mosaicity"
  let jdatum := jObjGet jb "GoniostatDatum"
  let jdetlm := jObjGet jb "DetectorLimits"
  let jdx := jObjGet jb "DetectorDistance"
  let je1 := jObjGet jb "Vector1"
  let je2 := jObjGet jb "Vector2"
  let je3 := jObjGet jb "Vector3"
  let jlbcell := jObjGet jb "CellRefinementFlags"
  let jgonlab := jObjGet jb "AxesLabels"
  let jphixyz := jObjGet jb "MissettingAngles"
  let jscanax := jObjGet jb "RotationAxis"
  let jso := jObjGet jb "SourceVector"
  let jsource := jObjGet jb "IdealisedSourceVector"
  let jtheta := jObjGet jb "Theta"
  { title := match json_string_value jtitle with
      | some s => snprintfStr 71 s
      | none => b0.title
  , alambd := if json_is_real jalambd then json_real_value jalambd else b0.alambd
  , bbfac := if json_is_real jbbfac then json_real_value jbbfac else b0.bbfac
  , bscale := if json_is_real jbscale then json_real_value jbscale else b0.bscale
  , delamb := if json_is_real jdelamb then json_real_value jdelamb else b0.delamb
  , delcor := if json_is_real jdelcor then json_real_value jdelcor else b0.delcor
  , divhd := if json_is_real jdivhd then json_real_value jdivhd else b0.divhd
  , divvd := if json_is_real jdivvd then json_real_value jdivvd else b0.divvd
  , iortyp := if json_is_real jiortyp then json_integer_value jiortyp else b0.iortyp
  , jsaxs := if json_is_integer jjsaxs then json_integer_value jjsaxs else b0.jsaxs
  , jumpax := if json_is_integer jjumpax then json_integer_value jjumpax else b0.jumpax
  , lbmflg := if json_is_integer jlbmflg then json_integer_value jlbmflg else b0.lbmflg
  , lcrflg := if json_is_integer jlcrflg then json_integer_value jlcrflg else b0.lcrflg
  , ldtype := if json_is_integer jldtype then json_integer_value jldtype else b0.ldtype
  , misflg := if json_is_integer jmisflg then json_integer_value jmisflg else b0.misflg
  , nbscal := if json_is_integer jnbscal then json_integer_value jnbscal else b0.nbscal
  , nbsetid := if json_is_integer jnbsetid then json_integer_value jnbsetid else b0.nbsetid
  , ncryst := if json_is_integer jncryst then json_integer_value jncryst else b0.ncryst
  , ndet := if json_is_integer jndet then json_integer_value jndet else b0.ndet
  , ngonax := if json_is_integer jngonax then json_integer_value jngonax else b0.ngonax
  , num := if json_is_integer jnum then json_integer_value jnum else b0.num
  , phiend := if json_is_real jphiend then json_real_value jphiend else b0.phiend
  , phirange := if json_is_real jphirange then json_real_value jphirange else b0.phirange
  , phistt := if json_is_real jphistt then json_real_value jphistt else b0.phistt
  , time1 := if json_is_real jtime1 then json_real_value jtime1 else b0.time1
  , time2 := if json_is_real jtime2 then json_real_value jtime2 else b0.time2
  , sdbfac := if json_is_real jsdbfac then json_real_value jsdbfac else b0.sdbfac
  , sdbscale := if json_is_real jsdbscale then json_real_value jsdbscale else b0.sdbscale
  , cell := match jcell with
      | some jc =>
        if json_array_check_dimensions jc [6] && json_array_is_homogenous_real jc then
          fixedRealCopy 6 (some jc)
        else b0.cell
      | none => b0.cell
  , crydat := match jcrydat with
      | some jc =>
        if json_array_size jc == 12 && json_array_is_homogenous_real jc then
          fixedRealCopy 12 (some jc)
        else b0.crydat
      | none => b0.crydat
  , datum := match jdatum with
      | some jc =>
        if json_array_size jc == 3 && json_array_is_homogenous_real jc then
          fixedRealCopy 3 (some jc)
        else b0.datum
      | none => b0.datum
  , detlm := match jdetlm with
      | some jc =>
        if json_array_check_dimensions_f jc [2, 2, 2] json_array_is_homogenous_real then
          fixedReal3Copy 2 2 2 (some jc)
        else b0.detlm
      | none => b0.detlm
  , dx := match jdx with
      | some jc =>
        if json_array_check_dimensions_f jc [2] json_array_is_homogenous_real then
          fixedRealCopy 2 (some jc)
        else b0.dx
      | none => b0.dx
  , e1 := match je1 with
      | some jc =>
        if json_array_check_dimensions_f jc [3] json_array_is_homogenous_real then
          fixedRealCopy 3 (some jc)
        else b0.e1
      | none => b0.e1
  , e2 := match je2 with
      | some jc =>
        if json_array_check_dimensions_f jc [3] json_array_is_homogenous_real then
          fixedRealCopy 3 (some jc)
        else b0.e2
      | none => b0.e2
  , e3 := match je3 with
      | some jc =>
        if json_array_check_dimensions_f jc [3] json_array_is_homogenous_real then
          fixedRealCopy 3 (some jc)
        else b0.e3
      | none => b0.e3
  , gonlab := (List.range 3).map (fun i =>
      snprintfOpt 9 (json_string_value (json_array_getO jgonlab i)))
  , lbcell := match jlbcell with
      | some jc =>
        if json_array_check_dimensions_f jc [6] json_array_is_homogenous_integer then
          fixedIntCopy 6 (some jc)
        else b0.lbcell
      | none => b0.lbcell
  , phixyz := match jphixyz with
      | some jc =>
        if json_array_check_dimensions_f jc [2, 3] json_array_is_homogenous_real then
          fixedReal2Copy 2 3 (some jc)
        else b0.phixyz
      | none => b0.phixyz
  , scanax := match jscanax with
      | some jc =>
        if json_array_check_dimensions_f jc [3] json_array_is_homogenous_real then
          fixedRealCopy 3 (some jc)
        else b0.scanax
      | none => b0.scanax
  , so := match jso with
      | some jc =>
        if json_array_check_dimensions_f jc [3] json_array_is_homogenous_real then
          fixedRealCopy 3 (some jc)
        else b0.so
      | none => b0.so
  , source := match jsource with
      | some jc =>
        if json_array_check_dimensions_f jc [3] json_array_is_homogenous_real then
          fixedRealCopy 3 (some jc)
        else b0.source
      | none => b0.source
  , theta := match jtheta with
      | some jc =>
        if json_array_check_dimensions_f jc [2] json_array_is_homogenous_real then
          fixedRealCopy 2 (some jc)
        else b0.theta
      | none => b0.theta
  , umat := match jumat with
      | some jc =>
        if json_array_check_dimensions_f jc [9] json_array_is_homogenous_real then
          fixedRealCopy 9 (some jc)
        else b0.umat
      | none => b0.umat }

/-- src/jsonmtz.c `setMtzBatches`: one batch node per tree element, linked
in tree order (the linked list is modelled as the resulting list). -/
def setMtzBatches (jbatches : Json) : List MtzBat :=
  (jelems jbatches).map setMtzBatch

/-- The column body of the loop in src/jsonmtz.c `setMtzSet`: builds one
column from a fresh `MtzMallocCol` allocation (zero defaults, `nref`
zero-filled reflection slots).  The C also sets the column's `active` flag,
a member that the tree never carries and the reader never emits; it is not
modelled. -/
def setMtzSetColumn (jcol : Json) (nref : Nat) : MtzCol :=
  let c0 := defaultCol nref
  let jcolsource := jObjGet jcol "ColumnSource"
  let jgrpname := jObjGet jcol "GroupName"
  let jlabel := jObjGet jcol "Label"
  let jtype := jObjGet jcol "Type"
  let jsource := jObjGet jcol "ColumnID"
  let jgrpposn := jObjGet jcol "GroupPosition"
  let jmin := jObjGet jcol "MinValue"
  let jmax := jObjGet jcol "MaxValue"
  let jgrptype := jObjGet jcol "GroupType"
  let jref := jObjGet jcol "Data"
  { colsource := match json_string_value jcolsource with
      | some s => snprintfStr 37 s
      | none => c0.colsource
  , grpname := match json_string_value jgrpname with
      | some s => snprintfStr 31 s
      | none => c0.grpname
  , label := match json_string_value jlabel with
      | some s => snprintfStr 31 s
      | none => c0.label
  , type := match json_string_value jtype with
      | some s => snprintfStr 3 s
      | none => c0.type
  , source := if json_is_integer jsource then json_integer_value jsource else c0.source
  , grpposn := if json_is_integer jgrpposn then json_integer_value jgrpposn else c0.grpposn
  , min := if json_is_real jmin then json_real_value jmin else c0.min
  , max := if json_is_real jmax then json_real_value jmax else c0.max
  , grptype := match json_string_value jgrptype with
      | some s => snprintfStr 5 s
      | none => c0.grptype
  , ref := match jref with
      | some jr =>
        if json_is_array (some jr) then setRefData c0.ref (jelems jr) else c0.ref
      | none => c0.ref }

/-- src/jsonmtz.c `setMtzSet`: transfers one dataset object into a
preallocated dataset slot `set0`.  When `Columns` is an array that is not
homogeneously objects, the C sets the dataset's column count from the array
size but populates no column structs, leaving stale pointers; that corner
(unreachable from `makeMtz`, whose count pass already required homogeneous
objects) is modelled by leaving the columns unchanged. -/
def setMtzSet (set0 : MtzSet) (jset : Json) (nref : Nat) : MtzSet :=
  let jdname := jObjGet jset "DatasetName"
  let jwavelength := jObjGet jset "Wavelength"
  let jsetid := jObjGet jset "DatasetID"
  let jcols := jObjGet jset "Columns"
  { dname := match json_string_value jdname with
      | some s => snprintfStr 65 s
      | none => set0.dname
  , wavelength := if json_is_real jwavelength then json_real_value jwavelength else set0.wavelength
  , setid := if json_is_integer jsetid then json_integer_value jsetid else set0.setid
  , cols := match jcols with
      | some jc =>
        if json_is_array (some jc) && json_array_is_homogenous_object jc then
          (jelems jc).map (fun jcol => setMtzSetColumn jcol nref)
        else set0.cols
      | none => set0.cols }

/-- The per-crystal body of src/jsonmtz.c `setMtzXtals`: transfers one
crystal object into a preallocated crystal slot (zero defaults). -/
def setMtzXtal (jx : Json) (nref : Nat) : MtzXtal :=
  let x0 := defaultXtal
  let jcell := jObjGet jx "CellConstants"
  let jresmin := jObjGet jx "ResolutionMin"
  let jresmax := jObjGet jx "ResolutionMax"
  let jxname := jObjGet jx "CrystalName"
  let jpname := jObjGet jx "ProjectName"
  let jxtalid := jObjGet jx "CrystalID"
  let jsets := jObjGet jx "Datasets"
  { cell := match jcell with
      | some jc =>
        if json_is_array (some jc) && json_array_is_homogenous_real jc then
          copyRealList x0.cell (jelems jc)
        else x0.cell
      | none => x0.cell
  , resmin := if json_is_real jresmin then json_real_value jresmin else x0.resmin
  , resmax := if json_is_real jresmax then json_real_value jresmax else x0.resmax
  , xname := match json_string_value jxname with
      | some s => snprintfStr 65 s
      | none => x0.xname
  , pname := match json_string_value jpname with
      | some s => snprintfStr 65 s
      | none => x0.pname
  , xtalid := if json_is_integer jxtalid then json_integer_value jxtalid else x0.xtalid
  , sets := match jsets with
      | some js =>
        if json_is_array (some js) && json_array_is_homogenous_object js then
          (jelems js).map (fun jset => setMtzSet defaultSet jset nref)
        else x0.sets
      | none => x0.sets }

/-- src/jsonmtz.c `setMtzXtals`: the loop over the `Crystals` array. -/
def setMtzXtals (jcrystals : Json) (nref : Nat) : List MtzXtal :=
  (jelems jcrystals).map (fun jx => setMtzXtal jx nref)

/-- The innermost loop of src/jsonmtz.c `findColumnBySource`: scan the
columns of one dataset in stored order, returning the index of the first
column whose `source` matches. -/
def findColK (cols : List MtzCol) (src : Int) (k : Nat) : Option Nat :=
  match cols with
  | [] => none
  | c :: cs => if c.source = src then some k else findColK cs src (k + 1)

/-- The middle loop of `findColumnBySource`: scan a crystal's datasets. -/
def findColJ (sets : List MtzSet) (src : Int) (j : Nat) : Option (Nat × Nat) :=
  match sets with
  | [] => none
  | s :: ss =>
    match findColK s.cols src 0 with
    | some k => some (j, k)
    | none => findColJ ss src (j + 1)

/-- The outer loop of `findColumnBySource`: scan the crystals. -/
def findColI (xtals : List MtzXtal) (src : Int) (i : Nat) : Option (Nat × Nat × Nat) :=
  match xtals with
  | [] => none
  | x :: xs =>
    match findColJ x.sets src 0 with
    | some jk => some (i, jk.1, jk.2)
    | none => findColI xs src (i + 1)

/-- src/jsonmtz.c `findColumnBySource`: linear scan over
crystal → dataset → column in stored order, returning the first column
whose source id matches, or NULL (`none`).  The returned pointer is
modelled by the (crystal, dataset, column) index triple. -/
def findColumnBySource (xtals : List MtzXtal) (src : Int) : Option (Nat × Nat × Nat) :=
  findColI xtals src 0

/-- The sort-order loop of src/jsonmtz.c `makeMtz`
(`mtzout->order[orderindex] = findColumnBySource(...)`): resolves each
listed id against the populated record, writing into the zero-initialized
(all-NULL) five-slot order array.  A sort list longer than five entries
would write out of bounds in the C; `List.set` drops such writes. -/
def resolveSortLoop (xtals : List MtzXtal) :
    List Json → Nat → List (Option (Nat × Nat × Nat)) → List (Option (Nat × Nat × Nat))
  | [], _, ord => ord
  | v :: vs, i, ord =>
    resolveSortLoop xtals vs (i + 1)
      (ord.set i (findColumnBySource xtals (json_integer_value (some v))))

/-- Count/validation of one column object in `makeMtz`'s count pass:
`Data` must be present and an array; its length is recorded. -/
def countColumn (jcol : Json) : Option Nat :=
  match jObjGet jcol "Data" with
  | some (Json.arr l) => some l.length
  | _ => none

/-- Count/validation of one dataset object in `makeMtz`'s count pass. -/
def countSet (jset : Json) : Option (List Nat) :=
  match jObjGet jset "Columns" with
  | some jcols =>
    if json_is_array (some jcols) && json_array_size jcols != 0 &&
        json_array_is_homogenous_object jcols then
      (jelems jcols).mapM countColumn
    else none
  | none => none

/-- Count/validation of one crystal object in `makeMtz`'s count pass. -/
def countXtal (jx : Json) : Option (List (List Nat)) :=
  match jObjGet jx "Datasets" with
  | some jsets =>
    if json_is_array (some jsets) && json_array_is_homogenous_object jsets then
      (jelems jsets).mapM countSet
    else none
  | none => none

/-- The consistency scan of `makeMtz`: the first recorded length seeds
`nref` and every later one must equal it. -/
def uniformCounts (l : List Nat) : Bool :=
  match l with
  | [] => true
  | n :: rest => rest.all (fun m => m == n)

/-- src/jsonmtz.c `makeMtz`: the tree → record builder.

Pass structure, following the source:
* `json_unpack` of the seven top-level keys.  jansson fills the output
  pointers left to right and stops at the first missing required key
  (`UnknownHeaders` is the only optional one, and `jhistory` /
  `junknown_headers` are preset to fresh empty arrays), which the chained
  `let`s reproduce.
* The `Crystals` gate: present, an array, non-empty, homogeneously objects —
  otherwise `structure_error` and no record is built.
* Count pass (`countXtal` / `countSet` / `countColumn`, one `Option` level
  per `structure_error` site): `Datasets` must be an array of objects,
  `Columns` a non-empty array of objects, `Data` an array; the reflection
  length of every column is recorded.
* Consistency check: every recorded length equal, otherwise the C frees the
  counting arrays and returns NULL before `MtzMalloc`.
* Populate: `nref` is `nrefl[0][0][0]` (when the first crystal has no
  datasets the C reads unallocated memory here; the model reads 0), then
  title, history, symmetry, batches, crystals, sort order (resolved against
  the already-populated crystals) and unknown headers, each behind the
  guards of the source. -/
def makeMtz (j : Json) : Option Mtz :=
  let jtitle := jObjGet j "Title"
  let jcrystals := if jtitle.isSome then jObjGet j "Crystals" else none
  let jhistory0 := if jcrystals.isSome then jObjGet j "History" else none
  let jsymm := if jhistory0.isSome then jObjGet j "Symmetry" else none
  let jbatches := if jsymm.isSome then jObjGet j "Batches" else none
  let jsort := if jbatches.isSome then jObjGet j "SortOrder" else none
  let junknown0 := if jsort.isSome then jObjGet j "UnknownHeaders" else none
  let jhistory := jhistory0.getD (Json.arr [])
  let junknown := junknown0.getD (Json.arr [])
  match jcrystals with
  | none => none
  | some jc =>
    if json_is_array (some jc) && json_array_size jc != 0 &&
        json_array_is_homogenous_object jc then
      match (jelems jc).mapM countXtal with
      | none => none
      | some counts =>
        if uniformCounts (counts.map (fun x => x.flatten)).flatten then
          let nref := ((counts.getD 0 []).getD 0 []).getD 0 0
          let xtals :=
            if json_is_array (some jc) && json_array_is_homogenous_object jc then
              setMtzXtals jc nref
            else []
          some
            { title := match json_string_value jtitle with
                | some s => snprintfStr 71 s
                | none => []
            , hist :=
                if json_is_array (some jhistory) &&
                    json_array_is_homogenous_string jhistory then
                  (jelems jhistory).map (fun e =>
                    strncpyStr MTZRECORDLENGTH ((json_string_value (some e)).getD []))
                else []
            , mtzsymm := match jsymm with
                | some js =>
                  if json_is_object (some js) then setMtzSymmetry defaultSym js
                  else defaultSym
                | none => defaultSym
            , batches := match jbatches with
                | some jb =>
                  if json_is_array (some jb) && json_array_is_homogenous_object jb then
                    setMtzBatches jb
                  else []
                | none => []
            , xtals := xtals
            , order := match jsort with
                | some js =>
                  if json_is_array (some js) && json_array_is_homogenous_integer js then
                    resolveSortLoop xtals (jelems js) 0 (List.replicate 5 none)
                  else List.replicate 5 none
                | none => List.replicate 5 none
            , unknown_headers :=
                if json_is_array (some junknown) &&
                    json_array_is_homogenous_string junknown then
                  (jelems junknown).map (fun e =>
                    strncpyStr MTZRECORDLENGTH ((json_string_value (some e)).getD []))
                else []
            , nref := nref }
        else none
    else none

/-- src/jsonmtz.c `makeTimestamp`: formats one `MTZRECORDLENGTH`-wide
history line into the caller's 80-byte buffer.  `timestring_index` is 56,
lowered to `strlen(jobstring) + 1` when the job string is shorter than 55
characters; the job string's first `timestring_index - 1` characters are
copied, a space separator is written, `strncpy` places the time string
NUL-padded into the next 24 bytes, and `memset` space-fills
`80 - 24 - 1 - strlen(jobstring)` bytes — a `size_t` subtraction that
wraps for job strings longer than 55 characters, making the `memset` write
far past the buffer; the model returns `none` when the writes do not fit
in the 80-byte buffer.  Within bounds, the buffer is fully written and no
terminator is stored (callers copy all 80 bytes into the history blob). -/
def makeTimestamp (jobstring timestring : List Char) : Option (List Char) :=
  let len := jobstring.length
  let ti : Nat := if 55 > len then len + 1 else 56
  let padCount : Nat := (((55 : Int) - len) % (2 : Int) ^ 64).toNat
  if ti + 24 + padCount ≤ MTZRECORDLENGTH then
    some (jobstring.take (ti - 1) ++ [' '] ++
      (timestring.take 24 ++ List.replicate (24 - timestring.length) nulChar) ++
      List.replicate padCount ' ')
  else none

/-! ## General lemmas about the loop encodings -/

/-- A fixed-count read loop `for (i = 0; i < n; i++) emit(g(a[i]))` over an
array of length `n` emits exactly `a.map g`. -/
theorem range_map_getD {α β : Type} (l : List α) (d : α) (g : α → β) (n : Nat)
    (h : l.length = n) :
    (List.range n).map (fun i => g (l.getD i d)) = l.map g := by
  induction l generalizing n with
  | nil => subst h; rfl
  | cons a as ih =>
    subst h
    rw [List.length_cons, List.range_succ_eq_map, List.map_cons, List.map_map]
    simp only [List.getD_cons_zero, Function.comp, List.getD_cons_succ]
    rw [List.map_cons]
    exact congrArg (g a :: ·) (ih as.length rfl)

/-- Special case of `range_map_getD` with the identity read. -/
theorem range_getD {α : Type} (l : List α) (d : α) (n : Nat) (h : l.length = n) :
    (List.range n).map (fun i => l.getD i d) = l :=
  (range_map_getD l d id n h).trans l.map_id

/-- `Option.mapM` over a list where the function succeeds pointwise. -/
theorem mapM_eq_some_map {α β : Type} (l : List α) (g : α → Option β) (f : α → β)
    (h : ∀ a ∈ l, g a = some (f a)) : l.mapM g = some (l.map f) := by
  induction l with
  | nil => rfl
  | cons a as ih =>
    rw [List.mapM_cons, h a (List.mem_cons_self a as),
      ih (fun x hx => h x (List.mem_cons_of_mem a hx))]
    rfl

/-- Element extraction from an emitted `(List.range n).map` array. -/
theorem getD_range_map {β : Type} (g : Nat → β) (n i : Nat) (d : β) (hi : i < n) :
    ((List.range n).map g).getD i d = g i := by
  rw [List.getD_eq_getElem?_getD]
  rw [List.getElem?_map, List.getElem?_range hi]
  rfl

/-- Length of an emitted `(List.range n).map` array. -/
theorem length_range_map {β : Type} (g : Nat → β) (n : Nat) :
    ((List.range n).map g).length = n := by
  rw [List.length_map, List.length_range]

/-- `setRefData` preserves the length of the reflection array. -/
theorem setRefData_length (orig : List Rat) (xs : List Json) :
    (setRefData orig xs).length = orig.length := by
  induction orig generalizing xs with
  | nil => cases xs <;> rfl
  | cons o os ih =>
    cases xs with
    | nil => rfl
    | cons x xr => simp [setRefData, ih]

/-- Slotwise description of the reflection-data copy loop: a `JSON_REAL`
element overwrites its slot, any other element (or a tree shorter than the
array) leaves the slot's previous value. -/
theorem setRefData_getD (orig : List Rat) (xs : List Json) (i : Nat)
    (hi : i < orig.length) :
    (setRefData orig xs).getD i 0 =
      match xs.getD i Json.null with
      | .real v => v
      | _ => orig.getD i 0 := by
  induction orig generalizing xs i with
  | nil => simp at hi
  | cons o os ih =>
    cases xs with
    | nil =>
      cases i <;> simp [setRefData, List.getD]
    | cons x xr =>
      cases i with
      | zero =>
        cases x <;> simp [setRefData, List.getD]
      | succ m =>
        have hm : m < os.length := by
          simpa [Nat.succ_lt_succ_iff] using hi
        cases x <;> simpa [setRefData, List.getD] using ih xr m hm

/-- The reflection copy loop applied to an all-real tree of the array's
length restores the whole array. -/
theorem setRefData_all_real (l : List Rat) (orig : List Rat)
    (h : orig.length = l.length) :
    setRefData orig (l.map Json.real) = l := by
  induction l generalizing orig with
  | nil =>
    cases orig with
    | nil => rfl
    | cons o os => simp at h
  | cons v vs ih =>
    cases orig with
    | nil => simp at h
    | cons o os =>
      simp only [List.length_cons, Nat.succ_inj] at h
      simp [setRefData, ih os h]

/-- The foreach real-copy loop applied to an all-real tree of the array's
length restores the whole array. -/
theorem copyRealList_all_real (l : List Rat) (orig : List Rat)
    (h : orig.length = l.length) :
    copyRealList orig (l.map Json.real) = l := by
  induction l generalizing orig with
  | nil =>
    cases orig with
    | nil => rfl
    | cons o os => simp at h
  | cons v vs ih =>
    cases orig with
    | nil => simp at h
    | cons o os =>
      simp only [List.length_cons, Nat.succ_inj] at h
      simp [copyRealList, json_real_value, ih os h]

/-- Reading a slot of a zero-filled replicate array. -/
theorem getD_replicate_zero (n i : Nat) (hi : i < n) :
    (List.replicate n (0 : Rat)).getD i 0 = 0 := by
  rw [List.getD_eq_getElem?_getD, List.getElem?_replicate]
  simp [hi]

/-- C5 (amended): during reflection-data population, an element of the
column's `Data` array that is typed as a real number (`JSON_REAL`) is copied
into the reflection array at the same position; an element of any other
type — including an integer-typed number — leaves that slot at its previous
(zero-initialized) value. -/
theorem setRefData_real_only (orig : List Rat) (xs : List Json) (i : Nat)
    (hi : i < orig.length) :
    (∀ v : Rat, xs.getD i Json.null = Json.real v →
      (setRefData orig xs).getD i 0 = v) ∧
    (json_is_real (some (xs.getD i Json.null)) = false →
      (setRefData orig xs).getD i 0 = orig.getD i 0) := by
  constructor
  · intro v hv
    rw [setRefData_getD orig xs i hi, hv]
  · intro hr
    rw [setRefData_getD orig xs i hi]
    cases hx : xs.getD i Json.null <;> simp_all [json_is_real]

/-- Witness for `setRefData_real_only` at a concrete column. -/
theorem setRefData_real_only_witness :
    (setRefData [(0 : Rat), 0] [Json.real 7, Json.str nanToken]).getD 0 0 = 7 ∧
    (setRefData [(0 : Rat), 0] [Json.real 7, Json.str nanToken]).getD 1 0 = 0 := by
  constructor
  · exact (setRefData_real_only [0, 0] [Json.real 7, Json.str nanToken] 0
      (by decide)).1 7 rfl
  · exact (setRefData_real_only [0, 0] [Json.real 7, Json.str nanToken] 1
      (by decide)).2 rfl

/-- C5 counterexample: an integer-typed tree element *is* a number
(jansson's `json_is_number`), yet the populate loop — which tests
`json_typeof == JSON_REAL` — does not copy it: a column built from a `Data`
array holding the integer 5 keeps the zero default in that slot. -/
theorem setRefData_number_counterexample :
    json_is_number (some (Json.int 5)) = true ∧
    (setMtzSetColumn (Json.obj [("Data", Json.arr [Json.int 5])]) 1).ref = [0] ∧
    (0 : Rat) ≠ 5 := by
  exact ⟨rfl, rfl, by norm_num⟩

/-- C4: the reader emits the string token `"NaN"` exactly at the positions
whose reflection value satisfies the missing-value predicate (all other
values are emitted as reals); and on import, a `Data` element that is the
literal string `"NaN"` leaves the zero default in the built column's slot —
in particular, whenever the predicate rejects 0, the missing-value mark is
not restored at that position. -/
theorem missing_value_asymmetry (p : Rat → Bool) (col : MtzCol) (nref i : Nat)
    (hi : i < nref) :
    (p (col.ref.getD i 0) = true →
      (readRefl p nref col).getD i Json.null = Json.str nanToken) ∧
    (p (col.ref.getD i 0) = false →
      (readRefl p nref col).getD i Json.null = Json.real (col.ref.getD i 0)) ∧
    (∀ xs : List Json, xs.getD i Json.null = Json.str nanToken →
      (setRefData (List.replicate nref 0) xs).getD i 0 = 0) ∧
    (∀ xs : List Json, p 0 = false → xs.getD i Json.null = Json.str nanToken →
      p ((setRefData (List.replicate nref 0) xs).getD i 0) = false) := by
  have hread : ∀ (q : Rat → Bool),
      (readRefl q nref col).getD i Json.null =
        if q (col.ref.getD i 0) then Json.str nanToken
        else Json.real (col.ref.getD i 0) := by
    intro q
    unfold readRefl
    exact getD_range_map _ nref i Json.null hi
  have himp : ∀ xs : List Json, xs.getD i Json.null = Json.str nanToken →
      (setRefData (List.replicate nref 0) xs).getD i 0 = 0 := by
    intro xs hxs
    have hlen : i < (List.replicate nref (0 : Rat)).length := by
      simpa using hi
    rw [setRefData_getD _ xs i hlen, hxs]
    exact getD_replicate_zero nref i hi
  refine ⟨fun hp => ?_, fun hp => ?_, himp, fun xs hp0 hxs => ?_⟩
  · rw [hread p, hp]; rfl
  · rw [hread p, hp]; rfl
  · rw [himp xs hxs]; exact hp0

/-- Witness for `missing_value_asymmetry` with the sentinel 999 at
position 0 of a one-reflection column. -/
theorem missing_value_asymmetry_witness :
    (readRefl (fun v => v == 999) 1
      { defaultCol 1 with ref := [999] }).getD 0 Json.null = Json.str nanToken ∧
    (setRefData (List.replicate 1 0) [Json.str nanToken]).getD 0 0 = 0 ∧
    (fun v : Rat => v == 999) ((setRefData (List.replicate 1 0)
      [Json.str nanToken]).getD 0 0) = false := by
  refine ⟨?_, ?_, ?_⟩
  · exact (missing_value_asymmetry (fun v => v == 999)
      { defaultCol 1 with ref := [999] } 1 0 (by decide)).1 (by decide)
  · exact (missing_value_asymmetry (fun v => v == 999)
      { defaultCol 1 with ref := [999] } 1 0 (by decide)).2.2.1
      [Json.str nanToken] rfl
  · exact (missing_value_asymmetry (fun v => v == 999)
      { defaultCol 1 with ref := [999] } 1 0 (by decide)).2.2.2
      [Json.str nanToken] (by decide) rfl

/-- C9: for a record whose stored unknown-header count `n` is positive, the
reader emits exactly `n / 2` trimmed strings — the count is halved to
compensate the suspected duplication defect of the external binary codec —
and the `UnknownHeaders` entry of the emitted tree is exactly this array. -/
theorem readMtz_unknown_headers_halved (p : Rat → Bool) (mtz : Mtz)
    (h : mtz.unknown_headers.length > 0) :
    (readUnknownHeaders mtz).length = mtz.unknown_headers.length / 2 ∧
    readUnknownHeaders mtz =
      (List.range (mtz.unknown_headers.length / 2)).map (fun i =>
        Json.str (stringtrimn (mtz.unknown_headers.getD i []) MTZRECORDLENGTH)) ∧
    jObjGet (readMtz p mtz) "UnknownHeaders" =
      some (Json.arr (readUnknownHeaders mtz)) := by
  have hne : mtz.unknown_headers.length ≠ 0 := Nat.pos_iff_ne_zero.mp h
  refine ⟨?_, ?_, rfl⟩
  · unfold readUnknownHeaders
    rw [if_pos hne]
    exact length_range_map _ _
  · unfold readUnknownHeaders
    rw [if_pos hne]

/-- Concrete record for the `readMtz_unknown_headers_halved` witness: three
stored unknown-header lines. -/
def mtzC9 : Mtz :=
  { title := [], hist := [], xtals := [], mtzsymm := defaultSym, batches := []
  , order := List.replicate 5 none
  , unknown_headers := [['a'], ['b'], ['c']], nref := 0 }

/-- Witness for `readMtz_unknown_headers_halved`: three stored lines emit
one string. -/
theorem readMtz_unknown_headers_halved_witness :
    (readUnknownHeaders mtzC9).length = 3 / 2 := by
  exact (readMtz_unknown_headers_halved (fun _ => false) mtzC9 (by decide)).1

/-- The sort-order emission loop evaluated on any five-slot order array:
append-per-resolved-slot equals filtering out the `none` slots. -/
theorem sortScan_eq (g : Nat × Nat × Nat → Json)
    (l : List (Option (Nat × Nat × Nat))) (h5 : l.length = 5) :
    (List.range 5).foldl (fun acc i =>
      match l.getD i none with
      | some t => acc ++ [g t]
      | none => acc) [] = (l.filterMap id).map g := by
  match l, h5 with
  | [o0, o1, o2, o3, o4], _ =>
    rcases o0 with _ | t0 <;> rcases o1 with _ | t1 <;> rcases o2 with _ | t2 <;>
      rcases o3 with _ | t3 <;> rcases o4 with _ | t4 <;> rfl

/-- Counting the resolved slots: `filterMap id` keeps one entry per
`isSome` slot. -/
theorem filterMap_id_length {α : Type} (l : List (Option α)) :
    (l.filterMap id).length = (l.filter (fun o => o.isSome)).length := by
  induction l with
  | nil => rfl
  | cons o os ih =>
    cases o <;> simp [List.filterMap_cons, ih]

/-- C10: the reader's `SortOrder` emission walks the five order slots in
slot order, skipping every NULL slot and emitting the referenced column's
source id for every resolved slot; hence the emitted array is the map of
the resolved slots in order, its length is the number of resolved slots,
and the unresolved positions leave no trace in the tree. -/
theorem readSortOrder_resolved_slots (p : Rat → Bool) (mtz : Mtz)
    (h5 : mtz.order.length = 5) :
    readSortOrder mtz =
      (mtz.order.filterMap id).map (fun t => Json.int (sourceAt mtz t)) ∧
    (readSortOrder mtz).length =
      (mtz.order.filter (fun o => o.isSome)).length ∧
    jObjGet (readMtz p mtz) "SortOrder" = some (Json.arr (readSortOrder mtz)) := by
  have hmain : readSortOrder mtz =
      (mtz.order.filterMap id).map (fun t => Json.int (sourceAt mtz t)) := by
    unfold readSortOrder
    exact sortScan_eq _ mtz.order h5
  refine ⟨hmain, ?_, rfl⟩
  rw [hmain, List.length_map, filterMap_id_length]

/-- Concrete record for the sort-order witnesses: one crystal, one dataset,
three columns with source ids 1, 3, 7 in stored order. -/
def mtzC6 : Mtz :=
  { title := [], hist := []
  , xtals :=
      [ { defaultXtal with
            sets :=
              [ { defaultSet with
                    cols :=
                      [ { defaultCol 0 with source := 1 }
                      , { defaultCol 0 with source := 3 }
                      , { defaultCol 0 with source := 7 } ] } ] } ]
  , mtzsymm := defaultSym, batches := []
  , order := [some (0, 0, 2), some (0, 0, 1), none, none, none]
  , unknown_headers := [], nref := 0 }

/-- Witness for `readSortOrder_resolved_slots`: a record whose order slots
are (source 7, source 3, NULL, NULL, NULL) emits exactly `[7, 3]`. -/
theorem readSortOrder_resolved_slots_witness :
    readSortOrder mtzC6 = [Json.int 7, Json.int 3] ∧
    (readSortOrder mtzC6).length = 2 := by
  have h := readSortOrder_resolved_slots (fun _ => false) mtzC6 (by decide)
  constructor
  · rw [h.1]; rfl
  · rw [h.2.1]; rfl

/-- Columns of a crystal list tagged with their (crystal, dataset, column)
index triples, in stored scan order, starting from dataset index `j`. -/
def colsWithIdx (i j : Nat) (cols : List MtzCol) :
    List ((Nat × Nat × Nat) × MtzCol) :=
  (cols.enum.map (fun kc => ((i, j, kc.1), kc.2)))

/-- All columns of the datasets of crystal `i`, starting from dataset
index `j`, tagged with index triples, in stored scan order. -/
def setsBlock (i j : Nat) (sets : List MtzSet) :
    List ((Nat × Nat × Nat) × MtzCol) :=
  ((sets.enumFrom j).map (fun js => colsWithIdx i js.1 js.2.cols)).flatten

/-- All columns of all crystals starting from crystal index `i`, tagged
with index triples, in stored scan order. -/
def xtalsBlock (i : Nat) (xtals : List MtzXtal) :
    List ((Nat × Nat × Nat) × MtzCol) :=
  ((xtals.enumFrom i).map (fun ix => setsBlock ix.1 0 ix.2.sets)).flatten

/-- Modelled from the spec (§4.2 SourceIndex): the flat
crystal → dataset → column scan order against which `findColumnBySource`'s
"first match" contract is stated. -/
def colsInOrder (xtals : List MtzXtal) : List ((Nat × Nat × Nat) × MtzCol) :=
  xtalsBlock 0 xtals

theorem find?_append_or {α : Type} (l1 l2 : List α) (q : α → Bool) :
    (l1 ++ l2).find? q = ((l1.find? q).orElse (fun _ => l2.find? q)) := by
  induction l1 with
  | nil => rfl
  | cons a as ih =>
    by_cases h : q a = true
    · simp [List.find?_cons_of_pos _ h, Option.orElse]
    · have h2 : ¬ q a = true := h
      simp only [List.cons_append, List.find?_cons_of_neg _ h2,
        List.find?_cons_of_neg _ h2]
      exact ih

theorem findColK_spec (src : Int) (i j : Nat) :
    ∀ (cols : List MtzCol) (k : Nat),
      (((cols.enumFrom k).map (fun kc => ((i, j, kc.1), kc.2))).find?
        (fun pc => pc.2.source == src)).map Prod.fst =
      (findColK cols src k).map (fun kk => (i, j, kk)) := by
  intro cols
  induction cols with
  | nil => intro k; rfl
  | cons c cs ih =>
    intro k
    by_cases h : c.source = src
    · rw [List.enumFrom_cons, List.map_cons,
        List.find?_cons_of_pos _ (by simpa using h)]
      unfold findColK
      rw [if_pos h]
      rfl
    · rw [List.enumFrom_cons, List.map_cons,
        List.find?_cons_of_neg _ (by simpa using h)]
      unfold findColK
      rw [if_neg h]
      exact ih (k + 1)

theorem findColJ_spec (src : Int) (i : Nat) :
    ∀ (sets : List MtzSet) (j : Nat),
      ((setsBlock i j sets).find? (fun pc => pc.2.source == src)).map Prod.fst =
      (findColJ sets src j).map (fun jk => (i, jk.1, jk.2)) := by
  intro sets
  induction sets with
  | nil => intro j; rfl
  | cons s ss ih =>
    intro j
    have hblock : setsBlock i j (s :: ss) =
        colsWithIdx i j s.cols ++ setsBlock i (j + 1) ss := by
      unfold setsBlock
      rw [List.enumFrom_cons, List.map_cons, List.flatten_cons]
    rw [hblock, find?_append_or]
    unfold findColJ
    cases hK : findColK s.cols src 0 with
    | none =>
      have h0 := findColK_spec src i j s.cols 0
      rw [hK] at h0
      have hfind : (colsWithIdx i j s.cols).find?
          (fun pc => pc.2.source == src) = none := by
        unfold colsWithIdx
        have := Option.map_eq_none'.mp h0
        simpa [List.enum] using this
      rw [hfind]
      exact ih (j + 1)
    | some k =>
      have h0 := findColK_spec src i j s.cols 0
      rw [hK] at h0
      obtain ⟨pc, hpc, hfst⟩ := Option.map_eq_some'.mp h0
      have hfind : (colsWithIdx i j s.cols).find?
          (fun pc => pc.2.source == src) = some pc := by
        unfold colsWithIdx
        simpa [List.enum] using hpc
      rw [hfind]
      simp [Option.orElse, hfst]

theorem findColI_spec (src : Int) :
    ∀ (xtals : List MtzXtal) (i : Nat),
      ((xtalsBlock i xtals).find? (fun pc => pc.2.source == src)).map Prod.fst =
      findColI xtals src i := by
  intro xtals
  induction xtals with
  | nil => intro i; rfl
  | cons x xs ih =>
    intro i
    have hblock : xtalsBlock i (x :: xs) =
        setsBlock i 0 x.sets ++ xtalsBlock (i + 1) xs := by
      unfold xtalsBlock
      rw [List.enumFrom_cons, List.map_cons, List.flatten_cons]
    rw [hblock, find?_append_or]
    unfold findColI
    cases hJ : findColJ x.sets src 0 with
    | none =>
      have h0 := findColJ_spec src i x.sets 0
      rw [hJ] at h0
      have hfind : (setsBlock i 0 x.sets).find?
          (fun pc => pc.2.source == src) = none := Option.map_eq_none'.mp h0
      rw [hfind]
      exact ih (i + 1)
    | some jk =>
      have h0 := findColJ_spec src i x.sets 0
      rw [hJ] at h0
      obtain ⟨pc, hpc, hfst⟩ := Option.map_eq_some'.mp h0
      rw [hpc]
      simp [Option.orElse, hfst]

/-- C6: `findColumnBySource` scans columns in stored
crystal → dataset → column order and returns the first column whose source
id matches (`none` when no column matches); in particular, on a record with
columns of source ids 1, 3, 7, resolving the sort list `[7, 3]` as `makeMtz`
does yields the source-7 column's slot, then the source-3 column's slot,
with the remaining slots unresolved, and a listed id with no matching
column resolves to `none` rather than failing. -/
theorem findColumnBySource_first_match :
    (∀ (xtals : List MtzXtal) (src : Int),
      findColumnBySource xtals src =
        ((colsInOrder xtals).find? (fun pc => pc.2.source == src)).map Prod.fst) ∧
    (resolveSortLoop mtzC6.xtals [Json.int 7, Json.int 3] 0
        (List.replicate 5 none) =
      [some (0, 0, 2), some (0, 0, 1), none, none, none]) ∧
    sourceAt mtzC6 (0, 0, 2) = 7 ∧ sourceAt mtzC6 (0, 0, 1) = 3 ∧
    findColumnBySource mtzC6.xtals 99 = none := by
  refine ⟨?_, by decide, by decide, by decide, by decide⟩
  intro xtals src
  exact (findColI_spec src xtals 0).symm

/-- C8 (amended): for a job label of at most 55 characters and a wall-clock
text of at least 24 characters (as `ctime` always produces), `makeTimestamp`
writes one full `MTZRECORDLENGTH`-character line: the job label, one space,
the wall-clock text truncated to 24 characters, and space padding to the
line width. -/
theorem makeTimestamp_format (job ts : List Char)
    (hjob : job.length ≤ 55) (hts : 24 ≤ ts.length) :
    makeTimestamp job ts =
      some (job ++ [' '] ++ ts.take 24 ++ List.replicate (55 - job.length) ' ') ∧
    (job ++ [' '] ++ ts.take 24 ++ List.replicate (55 - job.length) ' ').length =
      MTZRECORDLENGTH := by
  have hpadC : (((55 : Int) - job.length) % (2 : Int) ^ 64).toNat =
      55 - job.length := by
    have h0 : (0 : Int) ≤ (55 : Int) - job.length := by
      omega
    have h1 : (55 : Int) - job.length < (2 : Int) ^ 64 := by
      have : (0 : Int) ≤ (job.length : Int) := Int.natCast_nonneg _
      norm_num
      omega
    rw [Int.emod_eq_of_lt h0 h1]
    omega
  have hts24 : (ts.take 24).length = 24 := by
    rw [List.length_take]
    omega
  have hlen : (job ++ [' '] ++ ts.take 24 ++
      List.replicate (55 - job.length) ' ').length = MTZRECORDLENGTH := by
    simp only [List.length_append, List.length_cons, List.length_nil,
      List.length_replicate, hts24, MTZRECORDLENGTH]
    omega
  refine ⟨?_, hlen⟩
  simp only [makeTimestamp]
  rw [hpadC]
  have hrep0 : List.replicate (24 - ts.length) nulChar = [] := by
    have : 24 - ts.length = 0 := by omega
    rw [this]; rfl
  by_cases hlt : 55 > job.length
  · rw [if_pos hlt]
    have hcond : job.length + 1 + 24 + (55 - job.length) ≤ MTZRECORDLENGTH := by
      unfold MTZRECORDLENGTH; omega
    rw [if_pos hcond]
    have htake : job.take (job.length + 1 - 1) = job := by
      simp
    rw [htake, hrep0]
    simp
  · rw [if_neg hlt]
    have hj55 : job.length = 55 := by omega
    have hcond : 56 + 24 + (55 - job.length) ≤ MTZRECORDLENGTH := by
      unfold MTZRECORDLENGTH; omega
    rw [if_pos hcond]
    have htake : job.take (56 - 1) = job := by
      apply List.take_of_length_le; omega
    rw [htake, hrep0]
    simp

/-- Witness for `makeTimestamp_format` at a one-character job label and a
25-character wall-clock text. -/
theorem makeTimestamp_format_witness :
    makeTimestamp ['J'] (List.replicate 25 't') =
      some (['J'] ++ [' '] ++ (List.replicate 25 't').take 24 ++
        List.replicate 54 ' ') := by
  exact (makeTimestamp_format ['J'] (List.replicate 25 't')
    (by decide) (by decide)).1

/-- C8 counterexample: a 56-character job label makes the final `memset`
length wrap around in `size_t` arithmetic, so no in-bounds line is produced
at all (the claim promises a fixed-width line for every job label); and a
wall-clock text shorter than 24 characters is NUL-padded by `strncpy`, so
the region after it is not the claimed space padding. -/
theorem makeTimestamp_counterexample :
    makeTimestamp (List.replicate 56 'a') (List.replicate 25 't') = none ∧
    makeTimestamp ['J'] [] =
      some (['J', ' '] ++ List.replicate 24 nulChar ++ List.replicate 54 ' ') ∧
    nulChar ≠ ' ' := by
  refine ⟨rfl, rfl, by decide⟩

/-- The batch-object keys that `setMtzBatches` unpacks. -/
def batchKeys : List String :=
  [ "Title", "DatasetID", "CrystalNumber", "BatchNumber", "Wavelength"
  , "TemperatureFactor", "Scale", "Dispersion", "CorrelatedComponent"
  , "HorizontalBeamDivergence", "VerticalBeamDivergence", "OrientationBlockType"
  , "GoniostatScanAxisNumber", "JumpAxis", "BeamInfoFlag", "MosaicityModelFlag"
  , "DataTypeFlag", "MisFlag", "NumberOfBatchScales", "NumberOfDetectors"
  , "NumberOfGoniostatAxes", "EndOfPhi", "PhiRange", "StartOfPhi", "BFactorSD"
  , "BScaleSD", "StartTime", "StopTime", "CellDimensions", "OrientationMatrix"
  , "Mosaicity", "GoniostatDatum", "DetectorLimits", "DetectorDistance"
  , "Vector1", "Vector2", "Vector3", "AxesLabels", "CellRefinementFlags"
  , "MissettingAngles", "RotationAxis", "SourceVector", "IdealisedSourceVector"
  , "Theta" ]

/-- A batch object carrying every key, each bound to a mis-typed value
(JSON null fits no field's expected type). -/
def mistypedBatch : Json := Json.obj (batchKeys.map (fun k => (k, Json.null)))

/-- C7 (amended): during batch population, every guarded optional field —
all scalar fields and all shape-checked blocks — is left at its
zero-initialized default when its key is absent (first conjunct, for any
batch object with no recognizable keys) or when every key is present but
mis-typed (second conjunct); the goniostat axis labels are the exception:
they are copied unconditionally, and an absent or mis-typed `AxesLabels`
entry stores the glibc `"(null)"` artifact instead of the default.  The
batch still builds in both cases. -/
theorem setMtzBatch_optional_fields (jb : Json)
    (habs : ∀ k : String, jObjGet jb k = none) :
    setMtzBatch jb = { defaultBat with gonlab := List.replicate 3 nullToken } ∧
    setMtzBatch mistypedBatch =
      { defaultBat with gonlab := List.replicate 3 nullToken } := by
  constructor
  · simp only [setMtzBatch, habs]
    rfl
  · rfl

/-- Witness for `setMtzBatch_optional_fields` at the empty batch object. -/
theorem setMtzBatch_optional_fields_witness :
    setMtzBatch (Json.obj []) =
      { defaultBat with gonlab := List.replicate 3 nullToken } := by
  exact (setMtzBatch_optional_fields (Json.obj []) (fun k => rfl)).1

/-- C7 counterexample: the batch `AxesLabels` field is an optional field of
the batch object, absent from the empty batch object, yet the populated
destination is *not* left at its zero default — the unguarded `snprintf`
stores `"(null)"` in each of the three label slots. -/
theorem setMtzBatch_axeslabels_counterexample :
    jObjGet (Json.obj []) "AxesLabels" = none ∧
    (setMtzBatch (Json.obj [])).gonlab = List.replicate 3 nullToken ∧
    defaultBat.gonlab = List.replicate 3 ([] : List Char) ∧
    nullToken ≠ ([] : List Char) := by
  exact ⟨rfl, rfl, rfl, by decide⟩

/-- Two recorded lengths agreeing with the scan seed are equal. -/
theorem uniformCounts_eq (l : List Nat) (h : uniformCounts l = true) :
    ∀ a ∈ l, ∀ b ∈ l, a = b := by
  cases l with
  | nil => intro a ha; simp at ha
  | cons n rest =>
    unfold uniformCounts at h
    simp only [List.all_eq_true, beq_iff_eq] at h
    intro a ha b hb
    rcases List.mem_cons.mp ha with rfl | ha2
    · rcases List.mem_cons.mp hb with rfl | hb2
      · rfl
      · exact (h b hb2).symm
    · rcases List.mem_cons.mp hb with rfl | hb2
      · exact h a ha2
      · rw [h a ha2, h b hb2]

/-- If all recorded lengths equal a common value, the consistency scan
succeeds. -/
theorem uniformCounts_of_all_eq (l : List Nat) (n : Nat)
    (h : ∀ m ∈ l, m = n) : uniformCounts l = true := by
  cases l with
  | nil => rfl
  | cons m rest =>
    unfold uniformCounts
    simp only [List.all_eq_true, beq_iff_eq]
    intro k hk
    rw [h k (List.mem_cons_of_mem m hk), h m (List.mem_cons_self m rest)]

/-- C2: the builder yields no record whenever the count pass records two
reflection-array lengths that differ anywhere in the crystal/dataset/column
hierarchy (first conjunct — the C returns NULL at the consistency scan,
before `MtzMalloc` allocates the record) or when the `Crystals` array is
empty (second conjunct); and it yields a record whenever the top-level keys
unpack, the crystals are a non-empty homogeneous array of objects, every
crystal/dataset/column level passes the count pass with at least one
dataset per crystal, and every recorded length equals a common value `n` —
including the degenerate `n = 0` all-zero-length case. -/
theorem makeMtz_reflection_count_gate :
    (∀ (j jc : Json) (counts : List (List (List Nat))),
      jObjGet j "Crystals" = some jc →
      (jelems jc).mapM countXtal = some counts →
      (∃ a ∈ (counts.map (fun x => x.flatten)).flatten,
        ∃ b ∈ (counts.map (fun x => x.flatten)).flatten, a ≠ b) →
      makeMtz j = none) ∧
    (∀ j : Json, jObjGet j "Crystals" = some (Json.arr []) → makeMtz j = none) ∧
    (∀ (j jc : Json) (counts : List (List (List Nat))) (n : Nat),
      (jObjGet j "Title").isSome = true →
      jObjGet j "Crystals" = some jc →
      json_is_array (some jc) = true →
      jelems jc ≠ [] →
      json_array_is_homogenous_object jc = true →
      (jelems jc).mapM countXtal = some counts →
      (∀ x ∈ counts, x ≠ []) →
      (∀ m ∈ (counts.map (fun x => x.flatten)).flatten, m = n) →
      (makeMtz j).isSome = true) := by
  refine ⟨?_, ?_, ?_⟩
  · intro j jc counts hc hm hex
    have huni : uniformCounts ((counts.map (fun x => x.flatten)).flatten) = false := by
      cases hu : uniformCounts ((counts.map (fun x => x.flatten)).flatten) with
      | false => rfl
      | true =>
        obtain ⟨a, ha, b, hb, hne⟩ := hex
        exact absurd (uniformCounts_eq _ hu a ha b hb) hne
    simp only [makeMtz]
    cases ht : (jObjGet j "Title").isSome with
    | false => simp [ht]
    | true =>
      simp only [ht, if_true, hc]
      cases hg : json_is_array (some jc) && (json_array_size jc != 0) &&
          json_array_is_homogenous_object jc with
      | false => simp [hg]
      | true =>
        have hm2 : List.mapM.loop countXtal (jelems jc) [] = some counts := hm
        simp [hg, hm, hm2, huni]
  · intro j hc
    simp only [makeMtz]
    cases ht : (jObjGet j "Title").isSome with
    | false => simp [ht]
    | true =>
      simp only [ht, if_true, hc]
      simp [json_array_size]
  · intro j jc counts n ht hc harr hne hhom hm hsets hall
    have hsz : json_array_size jc ≠ 0 := by
      cases jc <;> simp [json_is_array] at harr ⊢
      intro hlen
      exact hne (by simpa [jelems] using List.eq_nil_of_length_eq_zero hlen)
    have huni : uniformCounts ((counts.map (fun x => x.flatten)).flatten) = true :=
      uniformCounts_of_all_eq _ n hall
    simp only [makeMtz]
    simp only [ht, if_true, hc]
    have hg : (json_is_array (some jc) && (json_array_size jc != 0) &&
        json_array_is_homogenous_object jc) = true := by
      simp [harr, hhom, hsz]
    have hm2 : List.mapM.loop countXtal (jelems jc) [] = some counts := hm
    simp [hg, hm, hm2, huni]

/-- Tree with two columns of differing reflection lengths (1 and 0). -/
def treeMismatch : Json :=
  Json.obj
    [ ("Title", .str [])
    , ("Crystals", .arr
        [ .obj [("Datasets", .arr
            [ .obj [("Columns", .arr
                [ .obj [("Data", .arr [.real 1])]
                , .obj [("Data", .arr [])] ])] ])] ]) ]

/-- Tree whose `Crystals` array is empty. -/
def treeZeroXtal : Json := Json.obj [("Crystals", .arr [])]

/-- Tree with one crystal, one dataset, one column, zero reflections. -/
def treeAllZero : Json :=
  Json.obj
    [ ("Title", .str ['T'])
    , ("Crystals", .arr
        [ .obj [("Datasets", .arr
            [ .obj [("Columns", .arr
                [ .obj [("Data", .arr [])] ])] ])] ]) ]

/-- Witness for `makeMtz_reflection_count_gate`: the mismatched tree and the
zero-crystal tree are rejected; the all-zero-length tree is accepted. -/
theorem makeMtz_reflection_count_gate_witness :
    makeMtz treeMismatch = none ∧ makeMtz treeZeroXtal = none ∧
    (makeMtz treeAllZero).isSome = true := by
  refine ⟨?_, ?_, ?_⟩
  · exact makeMtz_reflection_count_gate.1 treeMismatch
      (.arr [.obj [("Datasets", .arr
        [ .obj [("Columns", .arr
            [ .obj [("Data", .arr [.real 1])]
            , .obj [("Data", .arr [])] ])] ])]])
      [[[1, 0]]] rfl rfl
      ⟨1, by decide, 0, by decide, by decide⟩
  · exact makeMtz_reflection_count_gate.2.1 treeZeroXtal rfl
  · exact makeMtz_reflection_count_gate.2.2 treeAllZero
      (.arr [.obj [("Datasets", .arr
        [ .obj [("Columns", .arr [ .obj [("Data", .arr [])] ])] ])]])
      [[[0]]] 0 rfl rfl rfl (by simp [jelems]) rfl rfl
      (by intro x hx; simp at hx; simp [hx]) (by intro m hm; simpa using hm)

/-! ## Well-formedness of a record

A record as the external binary codec delivers it: every fixed-width
character buffer holds a NUL-free string within its capacity, fixed-size
numeric blocks have their declared shapes, every column has `nref`
reflection slots, crystals/datasets/columns are non-empty, the sort-order
array has its five slots with the resolved ones forming an initial segment
and each pointing at the first column carrying its source id, and (for the
round-trip statement) no unknown-header lines are stored.  These are the
"legal inputs" of the round-trip claim, written as executable predicates. -/

/-- A string fits NUL-free in a buffer that keeps `n` characters. -/
def cstrOk (l : List Char) (n : Nat) : Bool :=
  decide (l.length ≤ n) && l.all (fun c => c ≠ nulChar)

def wfCol (nref : Nat) (c : MtzCol) : Bool :=
  cstrOk c.label 30 && cstrOk c.type 2 && cstrOk c.colsource 36 &&
    cstrOk c.grpname 30 && cstrOk c.grptype 4 && decide (c.ref.length = nref)

def wfSet (nref : Nat) (s : MtzSet) : Bool :=
  cstrOk s.dname 64 && decide (s.cols ≠ []) && s.cols.all (wfCol nref)

def wfXtal (nref : Nat) (x : MtzXtal) : Bool :=
  cstrOk x.xname 64 && cstrOk x.pname 64 && decide (x.cell.length = 6) &&
    decide (x.sets ≠ []) && x.sets.all (wfSet nref)

def wfShape2 (n1 n2 : Nat) (m : List (List Rat)) : Bool :=
  decide (m.length = n1) && m.all (fun r => decide (r.length = n2))

def wfShape3 (n1 n2 n3 : Nat) (m : List (List (List Rat))) : Bool :=
  decide (m.length = n1) && m.all (fun r => wfShape2 n2 n3 r)

def wfSym (s : SymGrp) : Bool :=
  cstrOk s.spcgrpname 20 && cstrOk s.pgname 10 && wfShape3 192 4 4 s.sym

def wfBat (b : MtzBat) : Bool :=
  cstrOk b.title 70 &&
    decide (b.cell.length = 6) && decide (b.umat.length = 9) &&
    decide (b.crydat.length = 12) && decide (b.datum.length = 3) &&
    wfShape3 2 2 2 b.detlm && decide (b.dx.length = 2) &&
    decide (b.e1.length = 3) && decide (b.e2.length = 3) &&
    decide (b.e3.length = 3) &&
    decide (b.gonlab.length = 3) && b.gonlab.all (fun g => cstrOk g 8) &&
    decide (b.lbcell.length = 6) && wfShape2 2 3 b.phixyz &&
    decide (b.scanax.length = 3) && decide (b.so.length = 3) &&
    decide (b.source.length = 3) && decide (b.theta.length = 2) &&
    decide (b.iortyp = 0)

/-- The resolved order slots form an initial segment of the five slots. -/
def wfOrderShape : List (Option (Nat × Nat × Nat)) → Bool
  | [] => true
  | some _ :: rest => wfOrderShape rest
  | none :: rest => rest.all (fun o => o.isNone)

/-- Every resolved slot points at the first column carrying its own source
id (in particular source ids of referenced columns are not shadowed by an
earlier duplicate). -/
def wfOrderSlots (mtz : Mtz) : Bool :=
  mtz.order.all (fun o =>
    match o with
    | some t => decide (findColumnBySource mtz.xtals (sourceAt mtz t) = some t)
    | none => true)

def wfMtz (mtz : Mtz) : Bool :=
  cstrOk mtz.title 70 &&
    mtz.hist.all (fun l => isTrimmedLine l MTZRECORDLENGTH) &&
    decide (mtz.xtals ≠ []) && mtz.xtals.all (wfXtal mtz.nref) &&
    wfSym mtz.mtzsymm && mtz.batches.all wfBat &&
    decide (mtz.order.length = 5) && wfOrderShape mtz.order && wfOrderSlots mtz &&
    decide (mtz.unknown_headers = [])

/-- No reflection value of the record satisfies the missing-value
predicate. -/
def noMissing (p : Rat → Bool) (mtz : Mtz) : Bool :=
  mtz.xtals.all (fun x => x.sets.all (fun s => s.cols.all (fun c =>
    c.ref.all (fun v => !(p v)))))

/-! ## Per-component round-trip lemmas -/

/-- `snprintf` truncation is the identity within the capacity bound. -/
theorem snprintfStr_eq_self {l : List Char} {cap : Nat}
    (h : l.length ≤ cap - 1) : snprintfStr cap l = l :=
  List.take_of_length_le h

/-- Without missing values, the reader emits a column's reflections as the
plain real array. -/
theorem readRefl_no_missing (p : Rat → Bool) (col : MtzCol) (nref : Nat)
    (href : col.ref.length = nref)
    (hnm : col.ref.all (fun v => !(p v)) = true) :
    readRefl p nref col = col.ref.map Json.real := by
  unfold readRefl
  have hcong : ∀ i ∈ List.range nref,
      (if p (col.ref.getD i 0) then Json.str nanToken
       else Json.real (col.ref.getD i 0)) = Json.real (col.ref.getD i 0) := by
    intro i hi
    have hi2 : i < col.ref.length := href ▸ List.mem_range.mp hi
    have hmem : col.ref.getD i 0 ∈ col.ref := by
      rw [List.getD_eq_getElem?_getD, List.getElem?_eq_getElem hi2]
      simp only [Option.getD_some]
      exact List.getElem_mem hi2
    have hv := List.all_eq_true.mp hnm _ hmem
    simp only [Bool.not_eq_true'] at hv
    rw [if_neg (show ¬ p (col.ref.getD i 0) = true by rw [hv]; simp)]
  rw [List.map_congr_left hcong]
  exact range_map_getD col.ref 0 Json.real nref href

/-- Round trip of one column: building from the reader's column object
restores the column. -/
theorem column_roundtrip (p : Rat → Bool) (nref : Nat) (c : MtzCol)
    (hwf : wfCol nref c = true)
    (hnm : c.ref.all (fun v => !(p v)) = true) :
    setMtzSetColumn (readMtzColumn p nref c) nref = c := by
  simp only [wfCol, cstrOk, Bool.and_eq_true, decide_eq_true_eq] at hwf
  obtain ⟨⟨⟨⟨⟨⟨hlab, _⟩, ⟨hty, _⟩⟩, ⟨hcs, _⟩⟩, ⟨hgn, _⟩⟩, ⟨hgt, _⟩⟩, href⟩ := hwf
  have hdata : jObjGet (readMtzColumn p nref c) "Data" =
      some (Json.arr (readRefl p nref c)) := rfl
  simp only [setMtzSetColumn]
  have h1 : jObjGet (readMtzColumn p nref c) "ColumnSource" =
      some (Json.str c.colsource) := rfl
  have h2 : jObjGet (readMtzColumn p nref c) "GroupName" =
      some (Json.str c.grpname) := rfl
  have h3 : jObjGet (readMtzColumn p nref c) "Label" =
      some (Json.str c.label) := rfl
  have h4 : jObjGet (readMtzColumn p nref c) "Type" =
      some (Json.str c.type) := rfl
  have h5 : jObjGet (readMtzColumn p nref c) "ColumnID" =
      some (Json.int c.source) := rfl
  have h6 : jObjGet (readMtzColumn p nref c) "GroupPosition" =
      some (Json.int c.grpposn) := rfl
  have h7 : jObjGet (readMtzColumn p nref c) "MinValue" =
      some (Json.real c.min) := rfl
  have h8 : jObjGet (readMtzColumn p nref c) "MaxValue" =
      some (Json.real c.max) := rfl
  have h9 : jObjGet (readMtzColumn p nref c) "GroupType" =
      some (Json.str c.grptype) := rfl
  rw [h1, h2, h3, h4, h5, h6, h7, h8, h9, hdata]
  simp only [json_string_value, json_is_integer, json_is_real, if_true,
    json_integer_value, json_real_value, json_is_array]
  rw [snprintfStr_eq_self (by omega), snprintfStr_eq_self (by omega),
    snprintfStr_eq_self (by omega), snprintfStr_eq_self (by omega),
    snprintfStr_eq_self (by omega)]
  have href2 : setRefData (defaultCol nref).ref (jelems (Json.arr (readRefl p nref c))) =
      c.ref := by
    show setRefData (List.replicate nref 0) (readRefl p nref c) = c.ref
    rw [readRefl_no_missing p c nref href hnm]
    exact setRefData_all_real c.ref _ (by simp [href])
  rw [href2]

/-- An emitted all-real array passes the homogeneity check. -/
theorem homog_real_emitted (n : Nat) (g : Nat → Rat) :
    json_array_is_homogenous_real
      (Json.arr ((List.range n).map (fun i => Json.real (g i)))) = true := by
  simp only [json_array_is_homogenous_real, jelems]
  exact List.all_eq_true.mpr (fun e he => by
    obtain ⟨a, _, h⟩ := List.mem_map.mp he
    rw [← h]
    rfl)

/-- An array of emitted column objects passes the object-homogeneity
check. -/
theorem homog_object_cols (p : Rat → Bool) (nref : Nat) (cols : List MtzCol) :
    json_array_is_homogenous_object
      (Json.arr (cols.map (readMtzColumn p nref))) = true := by
  simp only [json_array_is_homogenous_object, jelems]
  exact List.all_eq_true.mpr (fun e he => by
    obtain ⟨a, _, h⟩ := List.mem_map.mp he
    rw [← h]
    rfl)

/-- Round trip of one dataset. -/
theorem set_roundtrip (p : Rat → Bool) (nref : Nat) (s : MtzSet)
    (hwf : wfSet nref s = true)
    (hnm : s.cols.all (fun c => c.ref.all (fun v => !(p v))) = true) :
    setMtzSet defaultSet (readMtzSet p s nref) nref = s := by
  simp only [wfSet, cstrOk, Bool.and_eq_true, decide_eq_true_eq] at hwf
  obtain ⟨⟨⟨hdn, _⟩, _⟩, hcols⟩ := hwf
  simp only [setMtzSet]
  have h1 : jObjGet (readMtzSet p s nref) "DatasetName" =
      some (Json.str s.dname) := rfl
  have h2 : jObjGet (readMtzSet p s nref) "Wavelength" =
      some (Json.real s.wavelength) := rfl
  have h3 : jObjGet (readMtzSet p s nref) "DatasetID" =
      some (Json.int s.setid) := rfl
  have h4 : jObjGet (readMtzSet p s nref) "Columns" =
      some (Json.arr (s.cols.map (readMtzColumn p nref))) := rfl
  rw [h1, h2, h3, h4]
  simp only [json_string_value, json_is_real, json_is_integer, json_real_value,
    json_integer_value, json_is_array, homog_object_cols, Bool.and_self,
    if_true, Bool.true_and]
  rw [snprintfStr_eq_self (by omega)]
  have hmap : (jelems (Json.arr (s.cols.map (readMtzColumn p nref)))).map
      (fun jcol => setMtzSetColumn jcol nref) = s.cols := by
    show (s.cols.map (readMtzColumn p nref)).map
      (fun jcol => setMtzSetColumn jcol nref) = s.cols
    rw [List.map_map]
    have hid : ∀ c ∈ s.cols,
        ((fun jcol => setMtzSetColumn jcol nref) ∘ readMtzColumn p nref) c = c := by
      intro c hc
      exact column_roundtrip p nref c (List.all_eq_true.mp hcols c hc)
        (List.all_eq_true.mp hnm c hc)
    rw [List.map_congr_left hid]
    simp
  rw [hmap]

/-- Round trip of one crystal. -/
theorem xtal_roundtrip (p : Rat → Bool) (nref : Nat) (x : MtzXtal)
    (hwf : wfXtal nref x = true)
    (hnm : x.sets.all (fun s => s.cols.all (fun c =>
      c.ref.all (fun v => !(p v)))) = true) :
    setMtzXtal (readMtzXtal p x nref) nref = x := by
  simp only [wfXtal, cstrOk, Bool.and_eq_true, decide_eq_true_eq] at hwf
  obtain ⟨⟨⟨⟨⟨hxn, _⟩, ⟨hpn, _⟩⟩, hc6⟩, _⟩, hsets⟩ := hwf
  simp only [setMtzXtal]
  have h1 : jObjGet (readMtzXtal p x nref) "CellConstants" =
      some (Json.arr ((List.range 6).map (fun i => Json.real (x.cell.getD i 0)))) := rfl
  have h2 : jObjGet (readMtzXtal p x nref) "ResolutionMin" =
      some (Json.real x.resmin) := rfl
  have h3 : jObjGet (readMtzXtal p x nref) "ResolutionMax" =
      some (Json.real x.resmax) := rfl
  have h4 : jObjGet (readMtzXtal p x nref) "CrystalName" =
      some (Json.str x.xname) := rfl
  have h5 : jObjGet (readMtzXtal p x nref) "ProjectName" =
      some (Json.str x.pname) := rfl
  have h6 : jObjGet (readMtzXtal p x nref) "CrystalID" =
      some (Json.int x.xtalid) := rfl
  have h7 : jObjGet (readMtzXtal p x nref) "Datasets" =
      some (Json.arr (x.sets.map (fun s => readMtzSet p s nref))) := rfl
  rw [h1, h2, h3, h4, h5, h6, h7]
  have hhomsets : json_array_is_homogenous_object
      (Json.arr (x.sets.map (fun s => readMtzSet p s nref))) = true := by
    simp only [json_array_is_homogenous_object, jelems]
    exact List.all_eq_true.mpr (fun e he => by
      obtain ⟨a, _, h⟩ := List.mem_map.mp he
      rw [← h]
      rfl)
  simp only [json_string_value, json_is_real, json_is_integer, json_real_value,
    json_integer_value, json_is_array, homog_real_emitted, hhomsets,
    Bool.and_self, if_true, Bool.true_and]
  rw [snprintfStr_eq_self (by omega), snprintfStr_eq_self (by omega)]
  have hcell : copyRealList defaultXtal.cell
      (jelems (Json.arr ((List.range 6).map (fun i => Json.real (x.cell.getD i 0))))) =
      x.cell := by
    show copyRealList (List.replicate 6 0)
      ((List.range 6).map (fun i => Json.real (x.cell.getD i 0))) = x.cell
    rw [range_map_getD x.cell 0 Json.real 6 hc6]
    exact copyRealList_all_real x.cell _ (by simp [hc6])
  rw [hcell]
  have hmap : (jelems (Json.arr (x.sets.map (fun s => readMtzSet p s nref)))).map
      (fun jset => setMtzSet defaultSet jset nref) = x.sets := by
    show (x.sets.map (fun s => readMtzSet p s nref)).map
      (fun jset => setMtzSet defaultSet jset nref) = x.sets
    rw [List.map_map]
    have hid : ∀ s ∈ x.sets,
        ((fun jset => setMtzSet defaultSet jset nref) ∘
          (fun s => readMtzSet p s nref)) s = s := by
      intro s hs
      exact set_roundtrip p nref s (List.all_eq_true.mp hsets s hs)
        (List.all_eq_true.mp hnm s hs)
    rw [List.map_congr_left hid]
    simp
  rw [hmap]

/-- The emitted triple-nested block equals the map image of the stored
block, given the declared shape. -/
theorem emit3_eq (m : List (List (List Rat))) (n1 n2 n3 : Nat)
    (hsh : wfShape3 n1 n2 n3 m = true) :
    (List.range n1).map (fun i => Json.arr ((List.range n2).map (fun j =>
      Json.arr ((List.range n3).map (fun k => Json.real (get3 m i j k)))))) =
    m.map (fun r => Json.arr (r.map (fun q => Json.arr (q.map Json.real)))) := by
  simp only [wfShape3, wfShape2, Bool.and_eq_true, decide_eq_true_eq,
    List.all_eq_true] at hsh
  obtain ⟨hlen, hrows⟩ := hsh
  have step := range_map_getD m [] (fun r => Json.arr ((List.range n2).map (fun j =>
    Json.arr ((List.range n3).map (fun k => Json.real ((r.getD j []).getD k 0)))))) n1 hlen
  refine Eq.trans ?_ (step.trans ?_)
  · rfl
  apply List.map_congr_left
  intro r hr
  obtain ⟨hr2, hcells⟩ := hrows r hr
  have step2 := range_map_getD r [] (fun q =>
    Json.arr ((List.range n3).map (fun k => Json.real (q.getD k 0)))) n2 hr2
  refine congrArg Json.arr (step2.trans ?_)
  apply List.map_congr_left
  intro q hq
  exact congrArg Json.arr (range_map_getD q 0 Json.real n3 (hcells q hq))

/-- A one-dimensional all-real array of the declared length passes the
shape/leaf check. -/
theorem chk_leaf_real (l : List Rat) (n : Nat) (h : l.length = n) :
    json_array_check_dimensions_f (Json.arr (l.map Json.real)) [n]
      json_array_is_homogenous_real = true := by
  rw [json_array_check_dimensions_f_cons]
  rw [if_neg (by simp [json_array_size, h])]
  simp only [List.length_nil, gt_iff_lt, Nat.lt_irrefl, if_false]
  simp only [json_array_is_homogenous_real, jelems]
  exact List.all_eq_true.mpr (fun e he => by
    obtain ⟨a, _, hh⟩ := List.mem_map.mp he
    rw [← hh]
    rfl)

/-- A two-level all-real block of the declared shape passes the
shape/leaf check. -/
theorem chk2_real (m : List (List Rat)) (n1 n2 : Nat)
    (hsh : wfShape2 n1 n2 m = true) :
    json_array_check_dimensions_f
      (Json.arr (m.map (fun q => Json.arr (q.map Json.real)))) [n1, n2]
      json_array_is_homogenous_real = true := by
  simp only [wfShape2, Bool.and_eq_true, decide_eq_true_eq,
    List.all_eq_true] at hsh
  obtain ⟨hlen, hrows⟩ := hsh
  rw [json_array_check_dimensions_f_cons]
  rw [if_neg (by simp [json_array_size, hlen])]
  simp only [List.length_cons, List.length_nil, gt_iff_lt, Nat.zero_lt_succ,
    if_true]
  simp only [jelems]
  exact List.all_eq_true.mpr (fun e he => by
    obtain ⟨q, hq, hh⟩ := List.mem_map.mp he
    rw [← hh]
    exact chk_leaf_real q n2 (hrows q hq))

/-- A three-level all-real block of the declared shape passes the
shape/leaf check. -/
theorem chk3_real (m : List (List (List Rat))) (n1 n2 n3 : Nat)
    (hsh : wfShape3 n1 n2 n3 m = true) :
    json_array_check_dimensions_f
      (Json.arr (m.map (fun r => Json.arr (r.map (fun q =>
        Json.arr (q.map Json.real)))))) [n1, n2, n3]
      json_array_is_homogenous_real = true := by
  simp only [wfShape3, Bool.and_eq_true, decide_eq_true_eq,
    List.all_eq_true] at hsh
  obtain ⟨hlen, hrows⟩ := hsh
  rw [json_array_check_dimensions_f_cons]
  rw [if_neg (by simp [json_array_size, hlen])]
  simp only [List.length_cons, List.length_nil, gt_iff_lt, Nat.zero_lt_succ,
    if_true]
  simp only [jelems]
  exact List.all_eq_true.mpr (fun e he => by
    obtain ⟨r, hr, hh⟩ := List.mem_map.mp he
    rw [← hh]
    exact chk2_real r n2 n3 (hrows r hr))

/-- The two-level foreach copy into a zero block of matching shape restores
the block. -/
theorem copyRealList2_shape (m : List (List Rat)) (n2 : Nat)
    (hrows : ∀ r ∈ m, r.length = n2) :
    copyRealList2 (List.replicate m.length (List.replicate n2 0))
      (m.map (fun q => Json.arr (q.map Json.real))) = m := by
  induction m with
  | nil => rfl
  | cons q qs ih =>
    simp only [List.length_cons, List.replicate_succ, List.map_cons]
    show copyRealList (List.replicate n2 0) (jelems (Json.arr (q.map Json.real))) ::
      copyRealList2 (List.replicate qs.length (List.replicate n2 0))
        (qs.map (fun q => Json.arr (q.map Json.real))) = q :: qs
    congr 1
    · exact copyRealList_all_real q _
        (by simp [hrows q (List.mem_cons_self q qs)])
    · exact ih (fun r hr => hrows r (List.mem_cons_of_mem q hr))

/-- The three-level foreach copy into a zero block of matching shape
restores the block. -/
theorem copyRealList3_shape (m : List (List (List Rat))) (n2 n3 : Nat)
    (hrows : ∀ r ∈ m, r.length = n2 ∧ ∀ q ∈ r, q.length = n3) :
    copyRealList3 (List.replicate m.length (List.replicate n2 (List.replicate n3 0)))
      (m.map (fun r => Json.arr (r.map (fun q => Json.arr (q.map Json.real))))) = m := by
  induction m with
  | nil => rfl
  | cons r rs ih =>
    simp only [List.length_cons, List.replicate_succ, List.map_cons]
    show copyRealList2 (List.replicate n2 (List.replicate n3 0))
        (jelems (Json.arr (r.map (fun q => Json.arr (q.map Json.real))))) ::
      copyRealList3 (List.replicate rs.length (List.replicate n2 (List.replicate n3 0)))
        (rs.map (fun r => Json.arr (r.map (fun q => Json.arr (q.map Json.real))))) =
      r :: rs
    obtain ⟨hr2, hcells⟩ := hrows r (List.mem_cons_self r rs)
    congr 1
    · have := copyRealList2_shape r n3 hcells
      rw [hr2] at this
      exact this
    · exact ih (fun x hx => hrows x (List.mem_cons_of_mem r hx))

/-- Round trip of the symmetry table. -/
theorem sym_roundtrip (s : SymGrp) (hwf : wfSym s = true) :
    setMtzSymmetry defaultSym (readMtzSymmetry s) = s := by
  have hsh : wfShape3 192 4 4 s.sym = true := by
    simp only [wfSym, Bool.and_eq_true] at hwf
    exact hwf.2
  have hlen : s.sym.length = 192 := by
    simp only [wfShape3, Bool.and_eq_true, decide_eq_true_eq] at hsh
    exact hsh.1
  simp only [wfSym, cstrOk, Bool.and_eq_true, decide_eq_true_eq] at hwf
  obtain ⟨⟨⟨hsn, _⟩, ⟨hpg, _⟩⟩, _⟩ := hwf
  simp only [setMtzSymmetry]
  have h1 : jObjGet (readMtzSymmetry s) "SpaceGroupNumber" =
      some (Json.int s.spcgrp) := rfl
  have h2 : jObjGet (readMtzSymmetry s) "SpaceGroupName" =
      some (Json.str s.spcgrpname) := rfl
  have h3 : jObjGet (readMtzSymmetry s) "PointGroupName" =
      some (Json.str s.pgname) := rfl
  have h4 : jObjGet (readMtzSymmetry s) "SpaceGroupConfidence" =
      some (Json.str [s.spg_confidence]) := rfl
  have h5 : jObjGet (readMtzSymmetry s) "NumberOfSymmetryOperations" =
      some (Json.int s.nsym) := rfl
  have h6 : jObjGet (readMtzSymmetry s) "NumberOfPrimitiveSymmetryOperations" =
      some (Json.int s.nsymp) := rfl
  have h7 : jObjGet (readMtzSymmetry s) "SymmetryOperations" =
      some (Json.arr ((List.range 192).map (fun i =>
        Json.arr ((List.range 4).map (fun j =>
          Json.arr ((List.range 4).map (fun k =>
            Json.real (get3 s.sym i j k)))))))) := rfl
  have h8 : jObjGet (readMtzSymmetry s) "LatticeType" =
      some (Json.str [s.symtyp]) := rfl
  rw [h1, h2, h3, h4, h5, h6, h7, h8]
  have hemit := emit3_eq s.sym 192 4 4 hsh
  have hchk : json_array_check_dimensions_f
      (Json.arr ((List.range 192).map (fun i =>
        Json.arr ((List.range 4).map (fun j =>
          Json.arr ((List.range 4).map (fun k =>
            Json.real (get3 s.sym i j k)))))))) [192, 4, 4]
      json_array_is_homogenous_real = true := by
    rw [hemit]
    exact chk3_real s.sym 192 4 4 hsh
  have hcopy : copyRealList3 defaultSym.sym
      (jelems (Json.arr ((List.range 192).map (fun i =>
        Json.arr ((List.range 4).map (fun j =>
          Json.arr ((List.range 4).map (fun k =>
            Json.real (get3 s.sym i j k))))))))) = s.sym := by
    show copyRealList3 (List.replicate 192 (List.replicate 4 (List.replicate 4 0)))
      ((List.range 192).map (fun i =>
        Json.arr ((List.range 4).map (fun j =>
          Json.arr ((List.range 4).map (fun k =>
            Json.real (get3 s.sym i j k))))))) = s.sym
    rw [hemit]
    have hrows : ∀ r ∈ s.sym, r.length = 4 ∧ ∀ q ∈ r, q.length = 4 := by
      simp only [wfShape3, wfShape2, Bool.and_eq_true, decide_eq_true_eq,
        List.all_eq_true] at hsh
      exact hsh.2
    have := copyRealList3_shape s.sym 4 4 hrows
    rw [hlen] at this
    exact this
  simp only [json_is_integer, json_integer_value, json_string_value,
    json_is_array, hchk, Bool.and_self, if_true, Bool.true_and]
  rw [hcopy]
  simp only [strncpyStr, List.headD_cons]
  rw [List.take_of_length_le (by omega : s.spcgrpname.length ≤ 21),
    List.take_of_length_le (by omega : s.pgname.length ≤ 11)]

/-- Reading element `i < n` of an emitted `(List.range n).map f` array. -/
theorem json_array_get_range_map (f : Nat → Json) (n i : Nat) (hi : i < n) :
    json_array_get (Json.arr ((List.range n).map f)) i = some (f i) := by
  simp only [json_array_get]
  rw [List.get?_eq_getElem?, List.getElem?_map, List.getElem?_range hi]
  rfl

/-- A fixed-count real copy loop over an emitted fixed-count real array. -/
theorem fixedRealCopy_emitted (n : Nat) (g : Nat → Rat) :
    fixedRealCopy n (some (Json.arr ((List.range n).map (fun i =>
      Json.real (g i))))) = (List.range n).map g := by
  unfold fixedRealCopy
  apply List.map_congr_left
  intro i hi
  rw [show json_array_getO (some (Json.arr ((List.range n).map (fun j =>
      Json.real (g j))))) i = some (Json.real (g i)) from
    json_array_get_range_map _ n i (List.mem_range.mp hi)]
  rfl

/-- A fixed-count integer copy loop over an emitted fixed-count integer
array. -/
theorem fixedIntCopy_emitted (n : Nat) (g : Nat → Int) :
    fixedIntCopy n (some (Json.arr ((List.range n).map (fun i =>
      Json.int (g i))))) = (List.range n).map g := by
  unfold fixedIntCopy
  apply List.map_congr_left
  intro i hi
  rw [show json_array_getO (some (Json.arr ((List.range n).map (fun j =>
      Json.int (g j))))) i = some (Json.int (g i)) from
    json_array_get_range_map _ n i (List.mem_range.mp hi)]
  rfl

/-- A fixed two-level real copy loop over an emitted fixed-shape block. -/
theorem fixedReal2Copy_emitted (n1 n2 : Nat) (g : Nat → Nat → Rat) :
    fixedReal2Copy n1 n2 (some (Json.arr ((List.range n1).map (fun i =>
      Json.arr ((List.range n2).map (fun j => Json.real (g i j))))))) =
    (List.range n1).map (fun i => (List.range n2).map (fun j => g i j)) := by
  unfold fixedReal2Copy
  apply List.map_congr_left
  intro i hi
  rw [show json_array_getO (some (Json.arr ((List.range n1).map (fun a =>
      Json.arr ((List.range n2).map (fun j => Json.real (g a j))))))) i =
      some (Json.arr ((List.range n2).map (fun j => Json.real (g i j)))) from
    json_array_get_range_map _ n1 i (List.mem_range.mp hi)]
  apply List.map_congr_left
  intro j hj
  rw [show json_array_getO (some (Json.arr ((List.range n2).map (fun a =>
      Json.real (g i a))))) j = some (Json.real (g i j)) from
    json_array_get_range_map _ n2 j (List.mem_range.mp hj)]
  rfl

/-- A fixed three-level real copy loop over an emitted fixed-shape block. -/
theorem fixedReal3Copy_emitted (n1 n2 n3 : Nat) (g : Nat → Nat → Nat → Rat) :
    fixedReal3Copy n1 n2 n3 (some (Json.arr ((List.range n1).map (fun i =>
      Json.arr ((List.range n2).map (fun j =>
        Json.arr ((List.range n3).map (fun k => Json.real (g i j k))))))))) =
    (List.range n1).map (fun i => (List.range n2).map (fun j =>
      (List.range n3).map (fun k => g i j k))) := by
  unfold fixedReal3Copy
  apply List.map_congr_left
  intro i hi
  rw [show json_array_getO (some (Json.arr ((List.range n1).map (fun a =>
      Json.arr ((List.range n2).map (fun j =>
        Json.arr ((List.range n3).map (fun k => Json.real (g a j k))))))))) i =
      some (Json.arr ((List.range n2).map (fun j =>
        Json.arr ((List.range n3).map (fun k => Json.real (g i j k)))))) from
    json_array_get_range_map _ n1 i (List.mem_range.mp hi)]
  apply List.map_congr_left
  intro j hj
  rw [show json_array_getO (some (Json.arr ((List.range n2).map (fun a =>
      Json.arr ((List.range n3).map (fun k => Json.real (g i a k))))))) j =
      some (Json.arr ((List.range n3).map (fun k => Json.real (g i j k)))) from
    json_array_get_range_map _ n2 j (List.mem_range.mp hj)]
  apply List.map_congr_left
  intro k hk
  rw [show json_array_getO (some (Json.arr ((List.range n3).map (fun a =>
      Json.real (g i j a))))) k = some (Json.real (g i j k)) from
    json_array_get_range_map _ n3 k (List.mem_range.mp hk)]
  rfl

/-- Reading back a fixed two-level block slot by slot restores it. -/
theorem range2_getD (m : List (List Rat)) (n1 n2 : Nat)
    (hsh : wfShape2 n1 n2 m = true) :
    (List.range n1).map (fun i => (List.range n2).map (fun j => get2 m i j)) = m := by
  simp only [wfShape2, Bool.and_eq_true, decide_eq_true_eq,
    List.all_eq_true] at hsh
  obtain ⟨hlen, hrows⟩ := hsh
  have step := range_map_getD m [] (fun r =>
    (List.range n2).map (fun j => r.getD j 0)) n1 hlen
  refine Eq.trans ?_ (step.trans ?_)
  · rfl
  conv_rhs => rw [← List.map_id m]
  apply List.map_congr_left
  intro r hr
  exact range_getD r 0 n2 (hrows r hr)

/-- Reading back a fixed three-level block slot by slot restores it. -/
theorem range3_getD (m : List (List (List Rat))) (n1 n2 n3 : Nat)
    (hsh : wfShape3 n1 n2 n3 m = true) :
    (List.range n1).map (fun i => (List.range n2).map (fun j =>
      (List.range n3).map (fun k => get3 m i j k))) = m := by
  simp only [wfShape3, wfShape2, Bool.and_eq_true, decide_eq_true_eq,
    List.all_eq_true] at hsh
  obtain ⟨hlen, hrows⟩ := hsh
  have step := range_map_getD m [] (fun r => (List.range n2).map (fun j =>
    (List.range n3).map (fun k => (r.getD j []).getD k 0))) n1 hlen
  refine Eq.trans ?_ (step.trans ?_)
  · rfl
  conv_rhs => rw [← List.map_id m]
  apply List.map_congr_left
  intro r hr
  obtain ⟨hr2, hcells⟩ := hrows r hr
  have step2 := range_map_getD r [] (fun q =>
    (List.range n3).map (fun k => q.getD k 0)) n2 hr2
  refine step2.trans ?_
  conv_rhs => rw [← List.map_id r]
  apply List.map_congr_left
  intro q hq
  exact range_getD q 0 n3 (hcells q hq)

/-- The pure shape check accepts any array of the declared length. -/
theorem chk_truth_arr (l : List Json) (n : Nat) (h : l.length = n) :
    json_array_check_dimensions (Json.arr l) [n] = true := by
  unfold json_array_check_dimensions
  rw [json_array_check_dimensions_f_cons,
    if_neg (by simp [json_array_size, h])]
  simp [json_truth]

/-- A range-emitted real array passes the `[n]`-with-real-leaves check. -/
theorem chk_leaf_range (n : Nat) (g : Nat → Rat) :
    json_array_check_dimensions_f (Json.arr ((List.range n).map (fun i =>
      Json.real (g i)))) [n] json_array_is_homogenous_real = true := by
  have hmm : (List.range n).map (fun i => Json.real (g i)) =
      ((List.range n).map g).map Json.real := by
    rw [List.map_map]
    rfl
  rw [hmm]
  exact chk_leaf_real _ n (by simp)

/-- A range-emitted integer array passes the `[n]`-with-integer-leaves
check. -/
theorem chk_leaf_int_range (n : Nat) (g : Nat → Int) :
    json_array_check_dimensions_f (Json.arr ((List.range n).map (fun i =>
      Json.int (g i)))) [n] json_array_is_homogenous_integer = true := by
  rw [json_array_check_dimensions_f_cons,
    if_neg (by simp [json_array_size])]
  simp only [List.length_nil, gt_iff_lt, Nat.lt_irrefl, if_false]
  simp only [json_array_is_homogenous_integer, jelems]
  exact List.all_eq_true.mpr (fun e he => by
    obtain ⟨a, _, hh⟩ := List.mem_map.mp he
    rw [← hh]
    rfl)

/-- The emitted two-level block equals the map image of the stored block,
given the declared shape. -/
theorem emit2_eq (m : List (List Rat)) (n1 n2 : Nat)
    (hsh : wfShape2 n1 n2 m = true) :
    (List.range n1).map (fun i => Json.arr ((List.range n2).map (fun j =>
      Json.real (get2 m i j)))) =
    m.map (fun q => Json.arr (q.map Json.real)) := by
  simp only [wfShape2, Bool.and_eq_true, decide_eq_true_eq,
    List.all_eq_true] at hsh
  obtain ⟨hlen, hrows⟩ := hsh
  have step := range_map_getD m [] (fun r => Json.arr ((List.range n2).map
    (fun j => Json.real (r.getD j 0)))) n1 hlen
  refine Eq.trans ?_ (step.trans ?_)
  · rfl
  apply List.map_congr_left
  intro r hr
  exact congrArg Json.arr (range_map_getD r 0 Json.real n2 (hrows r hr))

/-- Round trip of one batch (for batches whose `iortyp` is 0; the reader
emits `OrientationBlockType` as an integer while the builder's guard tests
`json_is_real`, so a non-zero `iortyp` cannot survive the trip). -/
theorem batch_roundtrip (b : MtzBat) (hwf : wfBat b = true) :
    setMtzBatch (readMtzBatch b) = b := by
  simp only [wfBat, cstrOk, Bool.and_eq_true, decide_eq_true_eq,
    List.all_eq_true] at hwf
  obtain ⟨⟨⟨⟨⟨⟨⟨⟨⟨⟨⟨⟨⟨⟨⟨⟨⟨⟨⟨htitle, _⟩, hcell6⟩, humat9⟩, hcry12⟩, hdat3⟩,
    hdetlm⟩, hdx2⟩, he1⟩, he2⟩, he3⟩, hglen⟩, hgall⟩, hlb6⟩, hphixyz⟩,
    hscan3⟩, hso3⟩, hsrc3⟩, hth2⟩, hio0⟩ := hwf
  simp only [setMtzBatch]
  have k1 : jObjGet (readMtzBatch b) "Title" = some (Json.str b.title) := rfl
  have k2 : jObjGet (readMtzBatch b) "DatasetID" = some (Json.int b.nbsetid) := rfl
  have k3 : jObjGet (readMtzBatch b) "CrystalNumber" = some (Json.int b.ncryst) := rfl
  have k4 : jObjGet (readMtzBatch b) "BatchNumber" = some (Json.int b.num) := rfl
  have k5 : jObjGet (readMtzBatch b) "Wavelength" = some (Json.real b.alambd) := rfl
  have k6 : jObjGet (readMtzBatch b) "TemperatureFactor" = some (Json.real b.bbfac) := rfl
  have k7 : jObjGet (readMtzBatch b) "Scale" = some (Json.real b.bscale) := rfl
  have k8 : jObjGet (readMtzBatch b) "Dispersion" = some (Json.real b.delamb) := rfl
  have k9 : jObjGet (readMtzBatch b) "CorrelatedComponent" = some (Json.real b.delcor) := rfl
  have k10 : jObjGet (readMtzBatch b) "HorizontalBeamDivergence" = some (Json.real b.divhd) := rfl
  have k11 : jObjGet (readMtzBatch b) "VerticalBeamDivergence" = some (Json.real b.divvd) := rfl
  have k12 : jObjGet (readMtzBatch b) "OrientationBlockType" = some (Json.int b.iortyp) := rfl
  have k13 : jObjGet (readMtzBatch b) "GoniostatScanAxisNumber" = some (Json.int b.jsaxs) := rfl
  have k14 : jObjGet (readMtzBatch b) "JumpAxis" = some (Json.int b.jumpax) := rfl
  have k15 : jObjGet (readMtzBatch b) "BeamInfoFlag" = some (Json.int b.lbmflg) := rfl
  have k16 : jObjGet (readMtzBatch b) "MosaicityModelFlag" = some (Json.int b.lcrflg) := rfl
  have k17 : jObjGet (readMtzBatch b) "DataTypeFlag" = some (Json.int b.ldtype) := rfl
  have k18 : jObjGet (readMtzBatch b) "MisFlag" = some (Json.int b.misflg) := rfl
  have k19 : jObjGet (readMtzBatch b) "NumberOfBatchScales" = some (Json.int b.nbscal) := rfl
  have k20 : jObjGet (readMtzBatch b) "NumberOfDetectors" = some (Json.int b.ndet) := rfl
  have k21 : jObjGet (readMtzBatch b) "NumberOfGoniostatAxes" = some (Json.int b.ngonax) := rfl
  have k22 : jObjGet (readMtzBatch b) "EndOfPhi" = some (Json.real b.phiend) := rfl
  have k23 : jObjGet (readMtzBatch b) "PhiRange" = some (Json.real b.phirange) := rfl
  have k24 : jObjGet (readMtzBatch b) "StartOfPhi" = some (Json.real b.phistt) := rfl
  have k25 : jObjGet (readMtzBatch b) "BFactorSD" = some (Json.real b.sdbfac) := rfl
  have k26 : jObjGet (readMtzBatch b) "BScaleSD" = some (Json.real b.sdbscale) := rfl
  have k27 : jObjGet (readMtzBatch b) "StartTime" = some (Json.real b.time1) := rfl
  have k28 : jObjGet (readMtzBatch b) "StopTime" = some (Json.real b.time2) := rfl
  have k29 : jObjGet (readMtzBatch b) "CellDimensions" =
      some (Json.arr ((List.range 6).map (fun i => Json.real (b.cell.getD i 0)))) := rfl
  have k30 : jObjGet (readMtzBatch b) "OrientationMatrix" =
      some (Json.arr ((List.range 9).map (fun i => Json.real (b.umat.getD i 0)))) := rfl
  have k31 : jObjGet (readMtzBatch b) "Mosaicity" =
      some (Json.arr ((List.range 12).map (fun i => Json.real (b.crydat.getD i 0)))) := rfl
  have k32 : jObjGet (readMtzBatch b) "GoniostatDatum" =
      some (Json.arr ((List.range 3).map (fun i => Json.real (b.datum.getD i 0)))) := rfl
  have k33 : jObjGet (readMtzBatch b) "DetectorLimits" =
      some (Json.arr ((List.range 2).map (fun i => Json.arr ((List.range 2).map (fun j =>
        Json.arr ((List.range 2).map (fun k => Json.real (get3 b.detlm i j k)))))))) := rfl
  have k34 : jObjGet (readMtzBatch b) "DetectorDistance" =
      some (Json.arr ((List.range 2).map (fun i => Json.real (b.dx.getD i 0)))) := rfl
  have k35 : jObjGet (readMtzBatch b) "Vector1" =
      some (Json.arr ((List.range 3).map (fun i => Json.real (b.e1.getD i 0)))) := rfl
  have k36 : jObjGet (readMtzBatch b) "Vector2" =
      some (Json.arr ((List.range 3).map (fun i => Json.real (b.e2.getD i 0)))) := rfl
  have k37 : jObjGet (readMtzBatch b) "Vector3" =
      some (Json.arr ((List.range 3).map (fun i => Json.real (b.e3.getD i 0)))) := rfl
  have k38 : jObjGet (readMtzBatch b) "AxesLabels" =
      some (Json.arr ((List.range 3).map (fun i => Json.str (b.gonlab.getD i [])))) := rfl
  have k39 : jObjGet (readMtzBatch b) "CellRefinementFlags" =
      some (Json.arr ((List.range 6).map (fun i => Json.int (b.lbcell.getD i 0)))) := rfl
  have k40 : jObjGet (readMtzBatch b) "MissettingAngles" =
      some (Json.arr ((List.range 2).map (fun i => Json.arr ((List.range 3).map (fun j =>
        Json.real (get2 b.phixyz i j)))))) := rfl
  have k41 : jObjGet (readMtzBatch b) "RotationAxis" =
      some (Json.arr ((List.range 3).map (fun i => Json.real (b.scanax.getD i 0)))) := rfl
  have k42 : jObjGet (readMtzBatch b) "SourceVector" =
      some (Json.arr ((List.range 3).map (fun i => Json.real (b.so.getD i 0)))) := rfl
  have k43 : jObjGet (readMtzBatch b) "IdealisedSourceVector" =
      some (Json.arr ((List.range 3).map (fun i => Json.real (b.source.getD i 0)))) := rfl
  have k44 : jObjGet (readMtzBatch b) "Theta" =
      some (Json.arr ((List.range 2).map (fun i => Json.real (b.theta.getD i 0)))) := rfl
  rw [k1, k2, k3, k4, k5, k6, k7, k8, k9, k10, k11, k12, k13, k14, k15, k16,
    k17, k18, k19, k20, k21, k22, k23, k24, k25, k26, k27, k28, k29, k30,
    k31, k32, k33, k34, k35, k36, k37, k38, k39, k40, k41, k42, k43, k44]
  have hg_cell : (json_array_check_dimensions (Json.arr ((List.range 6).map
      (fun i => Json.real (b.cell.getD i 0)))) [6] &&
      json_array_is_homogenous_real (Json.arr ((List.range 6).map
      (fun i => Json.real (b.cell.getD i 0))))) = true := by
    rw [chk_truth_arr _ 6 (by simp), homog_real_emitted]
    rfl
  have hsz_cry : (json_array_size (Json.arr ((List.range 12).map
      (fun i => Json.real (b.crydat.getD i 0)))) == 12 &&
      json_array_is_homogenous_real (Json.arr ((List.range 12).map
      (fun i => Json.real (b.crydat.getD i 0))))) = true := by
    rw [homog_real_emitted]
    simp [json_array_size]
  have hsz_dat : (json_array_size (Json.arr ((List.range 3).map
      (fun i => Json.real (b.datum.getD i 0)))) == 3 &&
      json_array_is_homogenous_real (Json.arr ((List.range 3).map
      (fun i => Json.real (b.datum.getD i 0))))) = true := by
    rw [homog_real_emitted]
    simp [json_array_size]
  have hg_detlm : json_array_check_dimensions_f (Json.arr ((List.range 2).map
      (fun i => Json.arr ((List.range 2).map (fun j =>
        Json.arr ((List.range 2).map (fun k =>
          Json.real (get3 b.detlm i j k)))))))) [2, 2, 2]
      json_array_is_homogenous_real = true := by
    rw [emit3_eq b.detlm 2 2 2 hdetlm]
    exact chk3_real b.detlm 2 2 2 hdetlm
  have hg_phixyz : json_array_check_dimensions_f (Json.arr ((List.range 2).map
      (fun i => Json.arr ((List.range 3).map (fun j =>
        Json.real (get2 b.phixyz i j)))))) [2, 3]
      json_array_is_homogenous_real = true := by
    rw [emit2_eq b.phixyz 2 3 hphixyz]
    exact chk2_real b.phixyz 2 3 hphixyz
  have hc_cell : fixedRealCopy 6 (some (Json.arr ((List.range 6).map
      (fun i => Json.real (b.cell.getD i 0))))) = b.cell := by
    rw [fixedRealCopy_emitted]
    exact range_getD b.cell 0 6 hcell6
  have hc_umat : fixedRealCopy 9 (some (Json.arr ((List.range 9).map
      (fun i => Json.real (b.umat.getD i 0))))) = b.umat := by
    rw [fixedRealCopy_emitted]
    exact range_getD b.umat 0 9 humat9
  have hc_cry : fixedRealCopy 12 (some (Json.arr ((List.range 12).map
      (fun i => Json.real (b.crydat.getD i 0))))) = b.crydat := by
    rw [fixedRealCopy_emitted]
    exact range_getD b.crydat 0 12 hcry12
  have hc_dat : fixedRealCopy 3 (some (Json.arr ((List.range 3).map
      (fun i => Json.real (b.datum.getD i 0))))) = b.datum := by
    rw [fixedRealCopy_emitted]
    exact range_getD b.datum 0 3 hdat3
  have hc_detlm : fixedReal3Copy 2 2 2 (some (Json.arr ((List.range 2).map
      (fun i => Json.arr ((List.range 2).map (fun j =>
        Json.arr ((List.range 2).map (fun k =>
          Json.real (get3 b.detlm i j k))))))))) = b.detlm := by
    rw [fixedReal3Copy_emitted]
    exact range3_getD b.detlm 2 2 2 hdetlm
  have hc_dx : fixedRealCopy 2 (some (Json.arr ((List.range 2).map
      (fun i => Json.real (b.dx.getD i 0))))) = b.dx := by
    rw [fixedRealCopy_emitted]
    exact range_getD b.dx 0 2 hdx2
  have hc_e1 : fixedRealCopy 3 (some (Json.arr ((List.range 3).map
      (fun i => Json.real (b.e1.getD i 0))))) = b.e1 := by
    rw [fixedRealCopy_emitted]
    exact range_getD b.e1 0 3 he1
  have hc_e2 : fixedRealCopy 3 (some (Json.arr ((List.range 3).map
      (fun i => Json.real (b.e2.getD i 0))))) = b.e2 := by
    rw [fixedRealCopy_emitted]
    exact range_getD b.e2 0 3 he2
  have hc_e3 : fixedRealCopy 3 (some (Json.arr ((List.range 3).map
      (fun i => Json.real (b.e3.getD i 0))))) = b.e3 := by
    rw [fixedRealCopy_emitted]
    exact range_getD b.e3 0 3 he3
  have hc_lb : fixedIntCopy 6 (some (Json.arr ((List.range 6).map
      (fun i => Json.int (b.lbcell.getD i 0))))) = b.lbcell := by
    rw [fixedIntCopy_emitted]
    exact range_getD b.lbcell 0 6 hlb6
  have hc_phixyz : fixedReal2Copy 2 3 (some (Json.arr ((List.range 2).map
      (fun i => Json.arr ((List.range 3).map (fun j =>
        Json.real (get2 b.phixyz i j))))))) = b.phixyz := by
    rw [fixedReal2Copy_emitted]
    exact range2_getD b.phixyz 2 3 hphixyz
  have hc_scan : fixedRealCopy 3 (some (Json.arr ((List.range 3).map
      (fun i => Json.real (b.scanax.getD i 0))))) = b.scanax := by
    rw [fixedRealCopy_emitted]
    exact range_getD b.scanax 0 3 hscan3
  have hc_so : fixedRealCopy 3 (some (Json.arr ((List.range 3).map
      (fun i => Json.real (b.so.getD i 0))))) = b.so := by
    rw [fixedRealCopy_emitted]
    exact range_getD b.so 0 3 hso3
  have hc_src : fixedRealCopy 3 (some (Json.arr ((List.range 3).map
      (fun i => Json.real (b.source.getD i 0))))) = b.source := by
    rw [fixedRealCopy_emitted]
    exact range_getD b.source 0 3 hsrc3
  have hc_th : fixedRealCopy 2 (some (Json.arr ((List.range 2).map
      (fun i => Json.real (b.theta.getD i 0))))) = b.theta := by
    rw [fixedRealCopy_emitted]
    exact range_getD b.theta 0 2 hth2
  have hgon : (List.range 3).map (fun i => snprintfOpt 9 (json_string_value
      (json_array_getO (some (Json.arr ((List.range 3).map (fun a =>
        Json.str (b.gonlab.getD a []))))) i))) = b.gonlab := by
    have hstep : ∀ i ∈ List.range 3, snprintfOpt 9 (json_string_value
        (json_array_getO (some (Json.arr ((List.range 3).map (fun a =>
          Json.str (b.gonlab.getD a []))))) i)) = b.gonlab.getD i [] := by
      intro i hi
      have hi2 : i < 3 := List.mem_range.mp hi
      rw [show json_array_getO (some (Json.arr ((List.range 3).map (fun a =>
          Json.str (b.gonlab.getD a []))))) i =
          some (Json.str (b.gonlab.getD i [])) from
        json_array_get_range_map _ 3 i hi2]
      show snprintfOpt 9 (some (b.gonlab.getD i [])) = b.gonlab.getD i []
      unfold snprintfOpt
      simp only [Option.getD_some]
      apply List.take_of_length_le
      have hi3 : i < b.gonlab.length := by omega
      have hmem : b.gonlab.getD i [] ∈ b.gonlab := by
        rw [List.getD_eq_getElem?_getD, List.getElem?_eq_getElem hi3]
        simp only [Option.getD_some]
        exact List.getElem_mem hi3
      have := (hgall _ hmem).1
      omega
    rw [List.map_congr_left hstep]
    exact range_getD b.gonlab [] 3 hglen
  have hiodflt : defaultBat.iortyp = b.iortyp := by
    rw [hio0]
    rfl
  simp only [hgon]
  simp only [json_string_value, json_is_real, json_is_integer,
    json_real_value, json_integer_value, hg_cell, hsz_cry, hsz_dat,
    hg_detlm, hg_phixyz, chk_leaf_range, chk_leaf_int_range, if_true,
    hc_cell, hc_umat, hc_cry, hc_dat, hc_detlm, hc_dx, hc_e1, hc_e2, hc_e3,
    hc_lb, hc_phixyz, hc_scan, hc_so, hc_src, hc_th, hiodflt]
  rw [snprintfStr_eq_self (by omega)]
  simp

/-- `Option.mapM` over a mapped list whose function succeeds pointwise. -/
theorem mapM_map_eq_some {α β γ : Type} (l : List α) (r : α → β)
    (g : β → Option γ) (f : α → γ) (h : ∀ a ∈ l, g (r a) = some (f a)) :
    (l.map r).mapM g = some (l.map f) := by
  induction l with
  | nil => rfl
  | cons a as ih =>
    rw [List.map_cons, List.mapM_cons, h a (List.mem_cons_self a as),
      ih (fun z hz => h z (List.mem_cons_of_mem a hz)), List.map_cons]
    rfl

/-- The count pass records the reflection count for an emitted column. -/
theorem countColumn_read (p : Rat → Bool) (nref : Nat) (c : MtzCol) :
    countColumn (readMtzColumn p nref c) = some nref := by
  unfold countColumn
  rw [show jObjGet (readMtzColumn p nref c) "Data" =
      some (Json.arr (readRefl p nref c)) from rfl]
  simp [readRefl]

/-- The count pass accepts an emitted dataset and records one reflection
count per column. -/
theorem countSet_read (p : Rat → Bool) (nref : Nat) (s : MtzSet)
    (hwf : wfSet nref s = true) :
    countSet (readMtzSet p s nref) = some (s.cols.map (fun _ => nref)) := by
  have hne : s.cols ≠ [] := by
    simp only [wfSet, Bool.and_eq_true, decide_eq_true_eq] at hwf
    exact hwf.1.2
  unfold countSet
  rw [show jObjGet (readMtzSet p s nref) "Columns" =
      some (Json.arr (s.cols.map (readMtzColumn p nref))) from rfl]
  have hsz : (json_array_size (Json.arr (s.cols.map (readMtzColumn p nref))) != 0)
      = true := by
    simp [json_array_size, hne]
  simp only [hsz, homog_object_cols, json_is_array, Bool.true_and,
    Bool.and_true, Bool.and_self, jelems, if_true]
  exact mapM_map_eq_some s.cols (readMtzColumn p nref) countColumn
    (fun _ => nref) (fun c _ => countColumn_read p nref c)

/-- The count pass accepts an emitted crystal and records its per-dataset
per-column reflection counts. -/
theorem countXtal_read (p : Rat → Bool) (nref : Nat) (x : MtzXtal)
    (hwf : wfXtal nref x = true) :
    countXtal (readMtzXtal p x nref) =
      some (x.sets.map (fun s => s.cols.map (fun _ => nref))) := by
  have hsets : ∀ s ∈ x.sets, wfSet nref s = true := by
    simp only [wfXtal, Bool.and_eq_true, decide_eq_true_eq,
      List.all_eq_true] at hwf
    exact hwf.2
  unfold countXtal
  rw [show jObjGet (readMtzXtal p x nref) "Datasets" =
      some (Json.arr (x.sets.map (fun s => readMtzSet p s nref))) from rfl]
  have hhom : json_array_is_homogenous_object
      (Json.arr (x.sets.map (fun s => readMtzSet p s nref))) = true := by
    simp only [json_array_is_homogenous_object, jelems]
    exact List.all_eq_true.mpr (fun e he => by
      obtain ⟨a, _, hh⟩ := List.mem_map.mp he
      rw [← hh]
      rfl)
  simp only [hhom, json_is_array, Bool.true_and, Bool.and_true,
    Bool.and_self, jelems, if_true]
  exact mapM_map_eq_some x.sets (fun s => readMtzSet p s nref) countSet
    (fun s => s.cols.map (fun _ => nref))
    (fun s hs => countSet_read p nref s (hsets s hs))

/-- A list of all-`none` options is a replicate of `none`. -/
theorem all_isNone_replicate {α : Type} (l : List (Option α))
    (h : l.all (fun o => o.isNone) = true) :
    l = List.replicate l.length none := by
  induction l with
  | nil => rfl
  | cons o os ih =>
    simp only [List.all_cons, Bool.and_eq_true] at h
    cases o with
    | some t => simp [Option.isNone] at h
    | none =>
      rw [List.length_cons, List.replicate_succ]
      exact congrArg (none :: ·) (ih h.2)

/-- A list of all-`none` options filters to nothing. -/
theorem all_isNone_filterMap {α : Type} (l : List (Option α))
    (h : l.all (fun o => o.isNone) = true) :
    l.filterMap id = [] := by
  induction l with
  | nil => rfl
  | cons o os ih =>
    simp only [List.all_cons, Bool.and_eq_true] at h
    cases o with
    | some t => simp [Option.isNone] at h
    | none => simpa [List.filterMap_cons] using ih h.2

/-- A prefix-shaped order array is its resolved entries followed by `none`
padding. -/
theorem orderShape_decomp {l : List (Option (Nat × Nat × Nat))}
    (h : wfOrderShape l = true) :
    l = (l.filterMap id).map some ++
      List.replicate (l.length - (l.filterMap id).length) none := by
  induction l with
  | nil => rfl
  | cons o os ih =>
    cases o with
    | some t =>
      have hrest : wfOrderShape os = true := h
      simp only [List.filterMap_cons, id, List.map_cons, List.length_cons,
        List.cons_append, Nat.succ_sub_succ, Nat.add_sub_add_right]
      exact congrArg (some t :: ·) (ih hrest)
    | none =>
      have hrest : os.all (fun o => o.isNone) = true := h
      simp only [List.filterMap_cons, id]
      rw [all_isNone_filterMap os hrest]
      simp only [List.map_nil, List.nil_append, List.length_cons,
        List.length_nil, Nat.sub_zero, List.replicate_succ]
      exact congrArg (none :: ·) (all_isNone_replicate os hrest)

/-- Setting the element right after a front segment. -/
theorem set_after_front {α : Type} (front : List α) (v a : α) (rest : List α) :
    (front ++ a :: rest).set front.length v = front ++ v :: rest := by
  induction front with
  | nil => rfl
  | cons f fs ih => simp [List.set, ih]

/-- The sort-resolution loop fills consecutive slots with the resolved
columns. -/
theorem resolveSortLoop_fill (xtals : List MtzXtal) (g : Nat × Nat × Nat → Int) :
    ∀ (ts : List (Nat × Nat × Nat)) (front : List (Option (Nat × Nat × Nat)))
      (m : Nat),
      (∀ t ∈ ts, findColumnBySource xtals (g t) = some t) → ts.length ≤ m →
      resolveSortLoop xtals (ts.map (fun t => Json.int (g t))) front.length
        (front ++ List.replicate m none) =
      front ++ ts.map some ++ List.replicate (m - ts.length) none := by
  intro ts
  induction ts with
  | nil =>
    intro front m _ _
    simp [resolveSortLoop]
  | cons t ts ih =>
    intro front m hfind hm
    obtain ⟨m2, rfl⟩ : ∃ m2, m = m2 + 1 := by
      cases m with
      | zero => simp at hm
      | succ m2 => exact ⟨m2, rfl⟩
    simp only [List.map_cons, resolveSortLoop]
    rw [show json_integer_value (some (Json.int (g t))) = g t from rfl,
      hfind t (List.mem_cons_self t ts), List.replicate_succ,
      set_after_front front (some t) none (List.replicate m2 none)]
    have hstep := ih (front ++ [some t]) m2
      (fun a ha => hfind a (List.mem_cons_of_mem t ha))
      (by simpa [Nat.succ_le_succ_iff] using hm)
    rw [List.length_append, List.length_cons, List.length_nil] at hstep
    simp only [List.append_assoc, List.cons_append, List.nil_append] at hstep ⊢
    rw [show front.length + 1 = front.length + 1 from rfl] at hstep
    rw [hstep]
    simp [Nat.succ_sub_succ]

/-- Resolving the emitted sort order against the same crystals restores the
order array. -/
theorem resolve_roundtrip (mtz : Mtz) (h5 : mtz.order.length = 5)
    (hshape : wfOrderShape mtz.order = true)
    (hslots : wfOrderSlots mtz = true) :
    resolveSortLoop mtz.xtals (readSortOrder mtz) 0 (List.replicate 5 none) =
      mtz.order := by
  have hread : readSortOrder mtz = ((mtz.order.filterMap id).map
      (fun t => Json.int (sourceAt mtz t))) := by
    unfold readSortOrder
    exact sortScan_eq _ mtz.order h5
  have hfind : ∀ t ∈ mtz.order.filterMap id,
      findColumnBySource mtz.xtals (sourceAt mtz t) = some t := by
    intro t ht
    obtain ⟨o, ho, hid⟩ := List.mem_filterMap.mp ht
    have : o = some t := hid
    subst this
    simp only [wfOrderSlots, List.all_eq_true] at hslots
    have := hslots _ ho
    simpa using this
  have hle : (mtz.order.filterMap id).length ≤ 5 :=
    h5 ▸ mtz.order.length_filterMap_le id
  have hfill := resolveSortLoop_fill mtz.xtals (fun t => sourceAt mtz t)
    (mtz.order.filterMap id) [] 5 hfind hle
  simp only [List.length_nil, List.nil_append] at hfill
  rw [hread, hfill, ← h5]
  exact (orderShape_decomp hshape).symm

/-- Field-wise constructor equality for `Mtz`. -/
theorem mtz_mk_eq (a : Mtz) {t : List Char} {h : List (List Char)}
    {x : List MtzXtal} {sy : SymGrp} {bb : List MtzBat}
    {oo : List (Option (Nat × Nat × Nat))} {u : List (List Char)} {n : Nat}
    (h1 : t = a.title) (h2 : h = a.hist) (h3 : x = a.xtals)
    (h4 : sy = a.mtzsymm) (h5 : bb = a.batches) (h6 : oo = a.order)
    (h7 : u = a.unknown_headers) (h8 : n = a.nref) :
    Mtz.mk t h x sy bb oo u n = a := by
  subst h1 h2 h3 h4 h5 h6 h7 h8
  rfl

/-- C1 (amended): building a record from the tree the reader emits
reproduces the record exactly in every field — with no timestamp step in
between, since the orchestrators append the history timestamp separately —
for every record that is well formed (`wfMtz`: bounded NUL-free strings,
trimmed history lines, declared fixed-array shapes, at least one crystal,
each crystal with at least one dataset of at least one column, a five-slot
sort order whose resolved slots form an initial segment pointing at the
first column of their source id, no unknown-header lines, and batches with
`OrientationBlockType` 0) and whose reflection data contains no
missing-value marks. -/
theorem makeMtz_readMtz_roundtrip (p : Rat → Bool) (mtz : Mtz)
    (hwf : wfMtz mtz = true) (hnm : noMissing p mtz = true) :
    makeMtz (readMtz p mtz) = some mtz := by
  simp only [wfMtz, cstrOk, Bool.and_eq_true, decide_eq_true_eq,
    List.all_eq_true] at hwf
  obtain ⟨⟨⟨⟨⟨⟨⟨⟨⟨⟨hti, _⟩, hhist⟩, hxne⟩, hxall⟩, hsym⟩, hbat⟩, h5⟩,
    hshape⟩, hslots⟩, huh⟩ := hwf
  have hnm2 : ∀ x ∈ mtz.xtals,
      (x.sets.all (fun s => s.cols.all (fun c =>
        c.ref.all (fun v => !(p v))))) = true := List.all_eq_true.mp hnm
  have ht : jObjGet (readMtz p mtz) "Title" = some (Json.str mtz.title) := rfl
  have hcr : jObjGet (readMtz p mtz) "Crystals" =
      some (Json.arr (mtz.xtals.map (fun x => readMtzXtal p x mtz.nref))) := rfl
  have hh : jObjGet (readMtz p mtz) "History" =
      some (Json.arr (mtz.hist.map (fun l =>
        Json.str (stringtrimn l MTZRECORDLENGTH)))) := rfl
  have hsy : jObjGet (readMtz p mtz) "Symmetry" =
      some (readMtzSymmetry mtz.mtzsymm) := rfl
  have hb : jObjGet (readMtz p mtz) "Batches" =
      some (Json.arr (mtz.batches.map readMtzBatch)) := rfl
  have hso : jObjGet (readMtz p mtz) "SortOrder" =
      some (Json.arr (readSortOrder mtz)) := rfl
  have huhk : jObjGet (readMtz p mtz) "UnknownHeaders" =
      some (Json.arr (readUnknownHeaders mtz)) := rfl
  -- the crystals gate
  have hglen : (json_array_size (Json.arr (mtz.xtals.map (fun x =>
      readMtzXtal p x mtz.nref))) != 0) = true := by
    simp [json_array_size, hxne]
  have hghom : json_array_is_homogenous_object (Json.arr (mtz.xtals.map
      (fun x => readMtzXtal p x mtz.nref))) = true := by
    simp only [json_array_is_homogenous_object, jelems]
    exact List.all_eq_true.mpr (fun e he => by
      obtain ⟨a, _, hh2⟩ := List.mem_map.mp he
      rw [← hh2]
      rfl)
  -- the count pass
  have hcount : (mtz.xtals.map (fun x => readMtzXtal p x mtz.nref)).mapM
      countXtal = some (mtz.xtals.map (fun x => x.sets.map (fun s =>
        s.cols.map (fun _ => mtz.nref)))) :=
    mapM_map_eq_some mtz.xtals _ countXtal _
      (fun x hx => countXtal_read p mtz.nref x (hxall x hx))
  -- the consistency check
  have huni : uniformCounts (((mtz.xtals.map (fun x => x.sets.map (fun s =>
      s.cols.map (fun _ => mtz.nref)))).map (fun x => x.flatten)).flatten)
      = true := by
    apply uniformCounts_of_all_eq _ mtz.nref
    intro m hm
    rw [List.mem_flatten] at hm
    obtain ⟨L, hL, hmL⟩ := hm
    rw [List.mem_map] at hL
    obtain ⟨c, hc, rfl⟩ := hL
    rw [List.mem_map] at hc
    obtain ⟨x, _, rfl⟩ := hc
    rw [List.mem_flatten] at hmL
    obtain ⟨L2, hL2, hmL2⟩ := hmL
    rw [List.mem_map] at hL2
    obtain ⟨s, _, rfl⟩ := hL2
    rw [List.mem_map] at hmL2
    obtain ⟨c2, _, rfl⟩ := hmL2
    rfl
  -- the recovered reflection count
  have hnref : ((((mtz.xtals.map (fun x => x.sets.map (fun s =>
      s.cols.map (fun _ => mtz.nref)))).getD 0 []).getD 0 []).getD 0 0)
      = mtz.nref := by
    rcases hx0 : mtz.xtals with _ | ⟨x0, xs⟩
    · exact absurd hx0 hxne
    · have hx0mem : x0 ∈ mtz.xtals := by
        rw [hx0]
        exact List.mem_cons_self x0 xs
      have hwx0 := hxall x0 hx0mem
      simp only [wfXtal, Bool.and_eq_true, decide_eq_true_eq,
        List.all_eq_true] at hwx0
      obtain ⟨⟨_, hs0ne⟩, hsall⟩ := hwx0
      rcases hs0 : x0.sets with _ | ⟨s0, ss⟩
      · exact absurd hs0 hs0ne
      · have hws0 := hsall s0 (by rw [hs0]; exact List.mem_cons_self s0 ss)
        simp only [wfSet, Bool.and_eq_true, decide_eq_true_eq] at hws0
        obtain ⟨⟨_, hc0ne⟩, _⟩ := hws0
        rcases hc0 : s0.cols with _ | ⟨c0, cs⟩
        · exact absurd hc0 hc0ne
        · simp [hx0, hs0, hc0, List.getD_cons_zero]
  -- populate: title
  have htitle : snprintfStr 71 mtz.title = mtz.title :=
    snprintfStr_eq_self (by omega)
  -- populate: history
  have hhomhist : json_array_is_homogenous_string (Json.arr (mtz.hist.map
      (fun l => Json.str (stringtrimn l MTZRECORDLENGTH)))) = true := by
    simp only [json_array_is_homogenous_string, jelems]
    exact List.all_eq_true.mpr (fun e he => by
      obtain ⟨a, _, hh2⟩ := List.mem_map.mp he
      rw [← hh2]
      rfl)
  have hhistmap : (jelems (Json.arr (mtz.hist.map (fun l =>
      Json.str (stringtrimn l MTZRECORDLENGTH))))).map (fun e =>
        strncpyStr MTZRECORDLENGTH ((json_string_value (some e)).getD []))
      = mtz.hist := by
    show (mtz.hist.map (fun l => Json.str (stringtrimn l MTZRECORDLENGTH))).map
      (fun e => strncpyStr MTZRECORDLENGTH ((json_string_value (some e)).getD []))
      = mtz.hist
    rw [List.map_map]
    have hid : ∀ l ∈ mtz.hist, ((fun e => strncpyStr MTZRECORDLENGTH
        ((json_string_value (some e)).getD [])) ∘ (fun l =>
          Json.str (stringtrimn l MTZRECORDLENGTH))) l = l := by
      intro l hl
      show strncpyStr MTZRECORDLENGTH ((json_string_value (some (Json.str
        (stringtrimn l MTZRECORDLENGTH)))).getD []) = l
      rw [show (json_string_value (some (Json.str (stringtrimn l
        MTZRECORDLENGTH)))).getD [] = stringtrimn l MTZRECORDLENGTH from rfl]
      rw [stringtrimn_eq_self (hhist l hl)]
      have hlen : l.length ≤ MTZRECORDLENGTH := by
        have := hhist l hl
        simp only [isTrimmedLine, Bool.and_eq_true, decide_eq_true_eq] at this
        exact this.1.1
      exact List.take_of_length_le hlen
    rw [List.map_congr_left hid]
    simp
  -- populate: symmetry, batches, crystals
  have hsymrt : setMtzSymmetry defaultSym (readMtzSymmetry mtz.mtzsymm)
      = mtz.mtzsymm := sym_roundtrip mtz.mtzsymm hsym
  have hhombat : json_array_is_homogenous_object (Json.arr (mtz.batches.map
      readMtzBatch)) = true := by
    simp only [json_array_is_homogenous_object, jelems]
    exact List.all_eq_true.mpr (fun e he => by
      obtain ⟨a, _, hh2⟩ := List.mem_map.mp he
      rw [← hh2]
      rfl)
  have hbats : setMtzBatches (Json.arr (mtz.batches.map readMtzBatch))
      = mtz.batches := by
    unfold setMtzBatches
    show (mtz.batches.map readMtzBatch).map setMtzBatch = mtz.batches
    rw [List.map_map]
    have hid : ∀ b ∈ mtz.batches, (setMtzBatch ∘ readMtzBatch) b = b :=
      fun b hb => batch_roundtrip b (hbat b hb)
    rw [List.map_congr_left hid]
    simp
  have hxtals : setMtzXtals (Json.arr (mtz.xtals.map (fun x =>
      readMtzXtal p x mtz.nref))) mtz.nref = mtz.xtals := by
    unfold setMtzXtals
    show (mtz.xtals.map (fun x => readMtzXtal p x mtz.nref)).map
      (fun jx => setMtzXtal jx mtz.nref) = mtz.xtals
    rw [List.map_map]
    have hid : ∀ x ∈ mtz.xtals, ((fun jx => setMtzXtal jx mtz.nref) ∘
        (fun x => readMtzXtal p x mtz.nref)) x = x :=
      fun x hx => xtal_roundtrip p mtz.nref x (hxall x hx) (hnm2 x hx)
    rw [List.map_congr_left hid]
    simp
  -- populate: sort order
  have hhomint : json_array_is_homogenous_integer (Json.arr
      (readSortOrder mtz)) = true := by
    have hread : readSortOrder mtz = ((mtz.order.filterMap id).map
        (fun t => Json.int (sourceAt mtz t))) := by
      unfold readSortOrder
      exact sortScan_eq _ mtz.order h5
    rw [hread]
    simp only [json_array_is_homogenous_integer, jelems]
    exact List.all_eq_true.mpr (fun e he => by
      obtain ⟨a, _, hh2⟩ := List.mem_map.mp he
      rw [← hh2]
      rfl)
  have horder : resolveSortLoop mtz.xtals (jelems (Json.arr
      (readSortOrder mtz))) 0 (List.replicate 5 none) = mtz.order := by
    show resolveSortLoop mtz.xtals (readSortOrder mtz) 0
      (List.replicate 5 none) = mtz.order
    exact resolve_roundtrip mtz h5 hshape (by
      simp only [wfOrderSlots, List.all_eq_true]
      intro o ho
      exact (List.all_eq_true.mp hslots o ho))
  -- populate: unknown headers
  have huhread : readUnknownHeaders mtz = [] := by
    unfold readUnknownHeaders
    rw [huh]
    simp
  have horder2 : resolveSortLoop mtz.xtals (readSortOrder mtz) 0
      (List.replicate 5 none) = mtz.order := horder
  have hobj : json_is_object (some (readMtzSymmetry mtz.mtzsymm)) = true := rfl
  have hhomempty : json_array_is_homogenous_string (Json.arr []) = true := rfl
  simp only [makeMtz, ht, hcr, hh, hsy, hb, hso, huhk, Option.isSome_some,
    Option.getD_some, if_true, json_is_array, hglen, hghom, Bool.and_self,
    Bool.true_and, Bool.and_true, jelems, hcount, huni, hnref, hhomhist,
    hobj, hhombat, hhomint, hbats, hsymrt, hxtals, horder2, huhread,
    hhomempty, List.map_nil]
  rw [Option.some.injEq]
  exact mtz_mk_eq mtz htitle hhistmap rfl rfl rfl rfl huh.symm rfl

/-- A concrete well-formed single-column record used to instantiate the
round-trip theorem. -/
def c1col : MtzCol :=
  { label := ['A'], type := ['J'], colsource := ['C'], grpname := ['G']
  , grptype := ['T'], grpposn := 0, source := 7, min := 1, max := 4
  , ref := [2] }

def c1set : MtzSet :=
  { dname := ['D'], setid := 1, wavelength := 1, cols := [c1col] }

def c1xtal : MtzXtal :=
  { xname := ['X'], pname := ['P'], xtalid := 1
  , cell := [10, 10, 10, 90, 90, 90], resmax := 2, resmin := 1
  , sets := [c1set] }

def c1rec : Mtz :=
  { title := ['T'], hist := [['H']], xtals := [c1xtal]
  , mtzsymm := defaultSym, batches := []
  , order := List.replicate 5 none
  , unknown_headers := [], nref := 1 }

set_option maxRecDepth 8000 in
/-- The round-trip theorem instantiated at `c1rec`, with both
well-formedness hypotheses discharged by evaluation. -/
theorem makeMtz_readMtz_roundtrip_witness :
    wfMtz c1rec = true ∧
      noMissing (fun v => decide (v = (999 : Rat))) c1rec = true ∧
      makeMtz (readMtz (fun v => decide (v = (999 : Rat))) c1rec) =
        some c1rec :=
  ⟨by decide, by decide,
    makeMtz_readMtz_roundtrip (fun v => decide (v = (999 : Rat))) c1rec
      (by decide) (by decide)⟩

/-- `c1rec` with the single reflection value replaced by one that the
missing-number test flags, so the reader emits the `"NaN"` string for it. -/
def c1mnfRec : Mtz :=
  { c1rec with xtals :=
    [{ c1xtal with sets :=
      [{ c1set with cols := [{ c1col with ref := [999] }] }] }] }

/-- `c1mnfRec` after the round trip: the flagged reflection value comes
back as the zero default because the builder copies only `JSON_REAL`
leaves and the `"NaN"` marker is a string. -/
def c1mnfRecOut : Mtz :=
  { c1rec with xtals :=
    [{ c1xtal with sets :=
      [{ c1set with cols := [{ c1col with ref := [0] }] }] }] }

set_option maxRecDepth 8000 in
/-- Counterexample to the unrestricted round-trip claim: a record whose
reflection data holds a value that `ccp4_ismnf` flags as missing is a
legal record, the reader emits the `"NaN"` marker string for that slot,
and the rebuilt record carries a zero there instead — so
`build(read(R))` does not reproduce `R`. -/
theorem makeMtz_readMtz_roundtrip_counterexample :
    makeMtz (readMtz (fun v => decide (v = (999 : Rat))) c1mnfRec) =
        some c1mnfRecOut ∧
      c1mnfRecOut ≠ c1mnfRec := by
  constructor
  · rfl
  · decide

end JsonMtz
